import Mathlib

/-!
Shallow embedding of `go-openconnect-sso` (src/main.go): a linear
orchestration script that performs a two-stage XML/HTTP authentication
exchange with an OpenConnect VPN gateway, waits for a browser-held token
cookie by polling, and writes a three-line credential file.

External calls (HTTP requests, playwright/browser operations, XML
unmarshalling, file writing) are modelled by oracles giving the result of
each call; the whole set of oracles for a run is an `Env`.  Each stage of
the program is a Lean function from its oracles to the list of observable
events it performs (log lines, HTTP requests, browser actions, sleeps,
file writes) together with its result; `os.Exit(1)` is modelled by an
`Except Nat` error carrying the exit code.  The unbounded cookie-polling
loop is given fuel: `Outcome.running` means the loop had not found the
token cookie after `fuel` polls.
-/

namespace OCSSO

/-- A browser cookie as the polling loop sees it (playwright.NetworkCookie:
only the Name and Value fields are consulted by the program). -/
structure NetworkCookie where
  name : String
  value : String
deriving Repr, DecidableEq

/-- Parsed initialization-stage XML reply (config.InitializationResponse).
`opaqueValue` embeds the nested `Opaque.Value` field. -/
structure InitializationResponse where
  loginURL : String
  loginFinalURL : String
  tokenCookieName : String
  opaqueValue : String
deriving Repr, DecidableEq

/-- Parsed finalization-stage XML reply (config.FinalizationResponse). -/
structure FinalizationResponse where
  cookie : String
  fingerprint : String
deriving Repr, DecidableEq

/-- An HTTP response as the program can see it: the status code, the bytes
`io.ReadAll` managed to read from the body, the error from that read when
one occurred (Go returns the bytes read so far alongside the error), and
`resp.Request.URL.String()` — the URL after following redirects. -/
structure HTTPResponse where
  statusCode : Nat
  bodyBytes : String
  bodyReadError : Option String
  finalURL : String
deriving Repr, DecidableEq

/-- Observable actions of the program, in program order. -/
inductive Event where
  | logError (msg : String)
  | logInfo (msg : String)
  | httpGet (url : String)
  | httpPost (url : String) (headers : List (String × String)) (body : String)
  | browserGoto (url : String)
  | sleepMs (n : Nat)
  | browserClose
  | writeFile (path : String) (content : String) (perm : Nat)
deriving Repr, DecidableEq

/-- Is the event a gateway POST? -/
def Event.isHttpPost : Event → Bool
  | .httpPost _ _ _ => true
  | _ => false

/-- Is the event a file write? -/
def Event.isWriteFile : Event → Bool
  | .writeFile _ _ _ => true
  | _ => false

/-- Is the event a sleep? -/
def Event.isSleep : Event → Bool
  | .sleepMs _ => true
  | _ => false

/-- Results of the external calls the program makes, in oracle form. -/
structure Env where
  /-- result of `playwright.Run()` -/
  playwrightRun : Except String Unit
  /-- result of `pw.Firefox.Launch(...)` -/
  firefoxLaunch : Except String Unit
  /-- result of `browser.NewContext()` -/
  newContext : Except String Unit
  /-- result of `context.NewPage()` -/
  newPage : Except String Unit
  /-- result of `http.Get(url)` -/
  httpGet : String → Except String HTTPResponse
  /-- result of `http.NewRequest("POST", server, body)` -/
  newRequest : String → String → Except String Unit
  /-- result of `client.Do(req)` for a POST of the given url and body -/
  httpPost : String → String → Except String HTTPResponse
  /-- result of the i-th `context.Cookies()` call of the polling loop -/
  cookiePolls : Nat → Except String (List NetworkCookie)
  /-- result of `xml.Unmarshal` into config.InitializationResponse -/
  parseInit : String → Except String InitializationResponse
  /-- result of `xml.Unmarshal` into config.FinalizationResponse -/
  parseFinal : String → Except String FinalizationResponse
  /-- result of `os.WriteFile(ocFile, content, 0600)` -/
  writeFileResult : String → String → Except String Unit

/-- How a (fuel-bounded) run ends: the process exited with a code, or the
polling loop was still running when the fuel ran out. -/
inductive Outcome where
  | exited (code : Nat)
  | running
deriving Repr, DecidableEq

/-- The fixed header set installed on every gateway POST (makePostReq,
src/main.go:204-215). -/
def requestHeaders : List (String × String) :=
  [("User-Agent", "AnyConnect Linux_64 4.7.00136"),
   ("Accept", "*/*"),
   ("Accept-Encoding", "identity"),
   ("X-Transcend-Version", "1"),
   ("X-Aggregate-Auth", "1"),
   ("X-Support-HTTP-Auth", "true"),
   ("Content-Type", "application/x-www-form-urlencoded")]

/-- `makePostReq` (src/main.go:197-227): build the request, set the fixed
headers, send it, read the body (`body, _ := io.ReadAll(resp.Body)` — the
read error is discarded, the status code is never inspected) and return the
bytes.  Request-construction and transport failures log and `os.Exit(1)`. -/
def makePostReq (mkReq : String → String → Except String Unit)
    (doPost : String → String → Except String HTTPResponse)
    (xmlPayload server : String) : List Event × Except Nat String :=
  match mkReq server xmlPayload with
  | .error _ => ([.logError "Failed to create http request"], .error 1)
  | .ok _ =>
    match doPost server xmlPayload with
    | .error _ =>
        ([.httpPost server requestHeaders xmlPayload,
          .logError "failed to POST request to the server"], .error 1)
    | .ok resp =>
        ([.httpPost server requestHeaders xmlPayload,
          .logInfo "successfullly received response from server"],
         .ok resp.bodyBytes)

/-- The init-stage XML payload (src/main.go:140-150), byte-exact including
the raw-string indentation, with the resolved URL spliced into
group-access. -/
def initPayload (targetVPNServer : String) : String :=
  "\n    <config-auth client=\"vpn\" type=\"init\" aggregate-auth-version=\"2\">\n      <version who=\"vpn\">4.7.00136</version>\n      <device-id>linux-64</device-id>\n      <group-select></group-select>\n\t\t\t<group-access>"
    ++ targetVPNServer
    ++ "</group-access>\n      <capabilities>\n        <auth-method>single-sign-on-v2</auth-method>\n      </capabilities>\n    </config-auth>\n\t"

/-- The auth-reply XML payload (src/main.go:170-181), byte-exact, with the
opaque value (`configHash`) and the captured SSO token spliced in. -/
def finalPayload (configHash token : String) : String :=
  "\n    <config-auth client=\"vpn\" type=\"auth-reply\" aggregate-auth-version=\"2\">\n      <version who=\"vpn\">4.7.00136</version>\n      <device-id>linux-64</device-id>\n      <session-token/>\n      <session-id/>\n      <opaque is-for=\"sg\">"
    ++ configHash
    ++ "</opaque>\n      <auth>\n        <sso-token>"
    ++ token
    ++ "</sso-token>\n      </auth>\n      </config-auth>\n  "

/-- `initializationStage` (src/main.go:128-165): GET the server URL to
resolve redirects (failure is fatal), POST the init payload to the resolved
URL, parse the reply (failure is fatal).  Returns the parsed response and
the resolved target URL. -/
def initializationStage (get : String → Except String HTTPResponse)
    (mkReq : String → String → Except String Unit)
    (doPost : String → String → Except String HTTPResponse)
    (parse : String → Except String InitializationResponse)
    (url : String) :
    List Event × Except Nat (InitializationResponse × String) :=
  match get url with
  | .error _ => ([.httpGet url, .logError "Failed to get url"], .error 1)
  | .ok resp =>
    let targetVPNServer := resp.finalURL
    let post := makePostReq mkReq doPost (initPayload targetVPNServer) targetVPNServer
    match post.2 with
    | .error c => (.httpGet url :: post.1, .error c)
    | .ok body =>
      match parse body with
      | .error _ =>
          (.httpGet url :: post.1
             ++ [.logError "failed to unmarshal the received response body to XML"],
           .error 1)
      | .ok result =>
          (.httpGet url :: post.1 ++ [.logInfo "unmarshalled init response"],
           .ok (result, targetVPNServer))

/-- `finalizationStage` (src/main.go:167-195): POST the auth-reply payload
to the resolved server, parse the reply (failure is fatal). -/
def finalizationStage (mkReq : String → String → Except String Unit)
    (doPost : String → String → Except String HTTPResponse)
    (parse : String → Except String FinalizationResponse)
    (vpnServer token configHash : String) :
    List Event × Except Nat FinalizationResponse :=
  let post := makePostReq mkReq doPost (finalPayload configHash token) vpnServer
  match post.2 with
  | .error c => (post.1, .error c)
  | .ok body =>
    match parse body with
    | .error _ =>
        (post.1 ++ [.logError "failed to unmarshal the received response body to XML"],
         .error 1)
    | .ok result => (post.1, .ok result)

/-- The cookie jar the loop body iterates over: on a `context.Cookies()`
error the Go slice is nil, so the inner loop sees no cookies. -/
def jarOf : Except String (List NetworkCookie) → List NetworkCookie
  | .ok cs => cs
  | .error _ => []

/-- The log event a failed `context.Cookies()` call produces (the loop
continues regardless). -/
def pollErrEvents : Except String (List NetworkCookie) → List Event
  | .ok _ => []
  | .error _ => [.logError "could not get cookies from browser context"]

/-- The inner `for _, cookie := range cookies` loop (src/main.go:65-72):
the first cookie whose Name equals the token cookie name, if any. -/
def findCookie (cookies : List NetworkCookie) (tokenName : String) :
    Option NetworkCookie :=
  cookies.find? (fun c => c.name == tokenName)

/-- The outer polling loop (src/main.go:58-78), fuel-bounded: poll the
cookie jar; on a match stop (the match is logged), otherwise sleep 10ms and
poll again.  Returns the poll index and the captured cookie on success. -/
def pollLoop (polls : Nat → Except String (List NetworkCookie))
    (tokenName : String) :
    Nat → Nat → List Event × Option (Nat × NetworkCookie)
  | 0, _ => ([], none)
  | fuel + 1, i =>
    let errEvs := pollErrEvents (polls i)
    match findCookie (jarOf (polls i)) tokenName with
    | some c =>
        (errEvs ++ [.logInfo "received successful authentication token cookie from browser"],
         some (i, c))
    | none =>
        let rest := pollLoop polls tokenName fuel (i + 1)
        (errEvs ++ .sleepMs 10 :: rest.1, rest.2)

/-- The credential-file content (writeOCConfig, src/main.go:230):
`fmt.Sprintf("cookie=%s\nservercert=%s\n# host=%s\n", ...)`. -/
def ocConfigContent (cookie fingerprint server : String) : String :=
  "cookie=" ++ cookie ++ "\nservercert=" ++ fingerprint ++ "\n# host=" ++ server ++ "\n"

/-- The permission bits passed to `os.WriteFile` (src/main.go:231). -/
def ocFileMode : Nat := 0o600

/-- `writeOCConfig` (src/main.go:229-236): write the credential bundle with
mode 0600; a write failure logs and exits 1. -/
def writeOCConfig (write : String → String → Except String Unit)
    (cookie fingerprint server ocFile : String) :
    List Event × Except Nat Unit :=
  let content := ocConfigContent cookie fingerprint server
  match write ocFile content with
  | .error _ =>
      ([.writeFile ocFile content ocFileMode,
        .logError "failed to write authentication details to file"], .error 1)
  | .ok _ =>
      ([.writeFile ocFile content ocFileMode,
        .logInfo "successfully written authentication details to file"], .ok ())

/-- One `if err != nil { log.Error(...) }` check of the setup block: the
failure is logged and nothing else happens. -/
def setupErrEvents (r : Except String Unit) (msg : String) : List Event :=
  match r with
  | .error _ => [.logError msg]
  | .ok _ => []

/-- The four environment-setup error checks at the top of `main`
(src/main.go:32-49): each failure is logged and execution continues — there
is no `os.Exit` on these paths. -/
def envSetupEvents (env : Env) : List Event :=
  setupErrEvents env.playwrightRun "could not launch playwright" ++
  setupErrEvents env.firefoxLaunch "could not launch Firefox" ++
  setupErrEvents env.newContext "could not create context" ++
  setupErrEvents env.newPage "could not create page"

/-- `main` (src/main.go:20-84): logger setup, browser-environment setup
(errors logged, not fatal), initialization stage, browser navigation to the
login URL, the cookie-polling loop, browser close on capture, finalization
stage, config write.  Normal completion is exit code 0. -/
def mainModel (env : Env) (server ocFile : String) (fuel : Nat) :
    List Event × Outcome :=
  let setup := Event.logInfo "Logger initialized" :: envSetupEvents env
  let init := initializationStage env.httpGet env.newRequest env.httpPost env.parseInit server
  match init.2 with
  | .error c => (setup ++ init.1, .exited c)
  | .ok (initResp, targetVPNServer) =>
    let nav := [Event.logInfo "waiting to detect successful authentication token cookie on the browser",
                Event.browserGoto initResp.loginURL]
    let loop := pollLoop env.cookiePolls initResp.tokenCookieName fuel 0
    match loop.2 with
    | none => (setup ++ init.1 ++ nav ++ loop.1, .running)
    | some (_, tokenCookie) =>
      let fin := finalizationStage env.newRequest env.httpPost env.parseFinal
        targetVPNServer tokenCookie.value initResp.opaqueValue
      match fin.2 with
      | .error c =>
          (setup ++ init.1 ++ nav ++ loop.1 ++ Event.browserClose :: fin.1, .exited c)
      | .ok finalResp =>
        let write := writeOCConfig env.writeFileResult finalResp.cookie finalResp.fingerprint
          targetVPNServer ocFile
        match write.2 with
        | .error c =>
            (setup ++ init.1 ++ nav ++ loop.1 ++ Event.browserClose :: fin.1
               ++ Event.logInfo "received openconnect server fingerprint and connection cookie successfully"
               :: write.1,
             .exited c)
        | .ok _ =>
            (setup ++ init.1 ++ nav ++ loop.1 ++ Event.browserClose :: fin.1
               ++ Event.logInfo "received openconnect server fingerprint and connection cookie successfully"
               :: write.1,
             .exited 0)

/-- The outcome of a run, computed without the event trace (used to state
that an oracle change leaves the run's outcome unchanged). -/
def mainOutcome (env : Env) (server ocFile : String) (fuel : Nat) : Outcome :=
  match (initializationStage env.httpGet env.newRequest env.httpPost env.parseInit server).2 with
  | .error c => .exited c
  | .ok (initResp, targetVPNServer) =>
    match (pollLoop env.cookiePolls initResp.tokenCookieName fuel 0).2 with
    | none => .running
    | some (_, tokenCookie) =>
      match (finalizationStage env.newRequest env.httpPost env.parseFinal
          targetVPNServer tokenCookie.value initResp.opaqueValue).2 with
      | .error c => .exited c
      | .ok finalResp =>
        match (writeOCConfig env.writeFileResult finalResp.cookie finalResp.fingerprint
            targetVPNServer ocFile).2 with
        | .error c => .exited c
        | .ok _ => .exited 0

/-- A file system as `os.WriteFile` sees it: path to (content, mode). -/
def FS := String → Option (String × Nat)

/-- Model of Go `os.WriteFile` (O_WRONLY|O_CREATE|O_TRUNC): an existing
file has its content replaced and keeps its mode; a new file is created
with `perm`. -/
def osWriteFile (fs : FS) (path content : String) (perm : Nat) : FS :=
  fun p =>
    if p = path then
      match fs path with
      | some (_, m) => some (content, m)
      | none => some (content, perm)
    else fs p

/-- The effect of `writeOCConfig` on the file system, via `os.WriteFile`
with mode 0600. -/
def writeOCConfigFS (fs : FS) (cookie fingerprint server ocFile : String) : FS :=
  osWriteFile fs ocFile (ocConfigContent cookie fingerprint server) ocFileMode

/-- env with all four browser-environment setup calls failing with `e`
(playwright run, Firefox launch, context creation, page creation). -/
def Env.withSetupErrors (env : Env) (e : String) : Env :=
  { env with playwrightRun := .error e, firefoxLaunch := .error e,
             newContext := .error e, newPage := .error e }

/-- env with every `context.Cookies()` error replaced by the empty jar the
loop body would iterate over anyway. -/
def Env.cookiesSquelched (env : Env) : Env :=
  { env with cookiePolls := fun i => .ok (jarOf (env.cookiePolls i)) }

end OCSSO
namespace OCSSO

/-! ### Basic lemmas about the stages -/

theorem mainModel_snd (env : Env) (server ocFile : String) (fuel : Nat) :
    (mainModel env server ocFile fuel).2 = mainOutcome env server ocFile fuel := by
  unfold mainModel mainOutcome
  rcases h1 : (initializationStage env.httpGet env.newRequest env.httpPost env.parseInit server).2
    with c | ⟨iR, tgt⟩
  · simp [h1]
  · simp only [h1]
    rcases h2 : (pollLoop env.cookiePolls iR.tokenCookieName fuel 0).2 with _ | ⟨i, ck⟩
    · simp [h2]
    · simp only [h2]
      rcases h3 : (finalizationStage env.newRequest env.httpPost env.parseFinal
          tgt ck.value iR.opaqueValue).2 with c | fR
      · simp [h3]
      · simp only [h3]
        rcases h4 : (writeOCConfig env.writeFileResult fR.cookie fR.fingerprint tgt ocFile).2
          with c | u
        · simp [h4]
        · simp [h4]

end OCSSO
namespace OCSSO

theorem findCookie_name (jar : List NetworkCookie) (name : String) (c : NetworkCookie)
    (h : findCookie jar name = some c) : c.name = name := by
  unfold findCookie at h
  have hp := List.find?_some h
  exact eq_of_beq hp

/-- `findCookie` returns the first cookie of the jar, in jar order, whose
name matches: everything before it in the jar has a different name. -/
theorem findCookie_first (jar : List NetworkCookie) (name : String) (c : NetworkCookie)
    (h : findCookie jar name = some c) :
    ∃ l₁ l₂, jar = l₁ ++ c :: l₂ ∧ ∀ x ∈ l₁, x.name ≠ name := by
  induction jar with
  | nil => simp [findCookie] at h
  | cons a t ih =>
    by_cases ha : (a.name == name) = true
    · have hstep : findCookie (a :: t) name = some a := by
        simp [findCookie, List.find?_cons, ha]
      rw [hstep] at h
      obtain rfl := (Option.some_inj.mp h)
      exact ⟨[], t, rfl, by simp⟩
    · have hstep : findCookie (a :: t) name = findCookie t name := by
        simp [findCookie, List.find?_cons, ha]
      rw [hstep] at h
      obtain ⟨l₁, l₂, rfl, hl⟩ := ih h
      refine ⟨a :: l₁, l₂, rfl, ?_⟩
      intro x hx
      rcases List.mem_cons.mp hx with rfl | hmem
      · intro hxn; exact ha (by simp [hxn])
      · exact hl x hmem

theorem findCookie_none (jar : List NetworkCookie) (name : String)
    (h : findCookie jar name = none) : ∀ x ∈ jar, x.name ≠ name := by
  intro x hx hxn
  unfold findCookie at h
  have := List.find?_eq_none.mp h x hx
  simp [hxn] at this

theorem pollLoop_some (polls : Nat → Except String (List NetworkCookie)) (name : String) :
    ∀ fuel start i c, (pollLoop polls name fuel start).2 = some (i, c) →
      start ≤ i ∧ i < start + fuel ∧
      findCookie (jarOf (polls i)) name = some c ∧
      ∀ j, start ≤ j → j < i → findCookie (jarOf (polls j)) name = none := by
  intro fuel
  induction fuel with
  | zero => intro start i c h; simp [pollLoop] at h
  | succ n ih =>
    intro start i c h
    rw [pollLoop] at h
    rcases hf : findCookie (jarOf (polls start)) name with _ | c0
    · rw [hf] at h
      simp only at h
      obtain ⟨h1, h2, h3, h4⟩ := ih (start + 1) i c h
      refine ⟨by omega, by omega, h3, ?_⟩
      intro j hj1 hj2
      rcases Nat.eq_or_lt_of_le hj1 with rfl | hlt
      · exact hf
      · exact h4 j hlt hj2
    · rw [hf] at h
      simp only [Option.some_inj] at h
      obtain ⟨h1, h2⟩ := Prod.ext_iff.mp h
      simp only at h1 h2
      subst h1; subst h2
      exact ⟨le_refl _, by omega, hf, fun j hj1 hj2 => absurd hj1 (by omega)⟩

theorem pollLoop_none (polls : Nat → Except String (List NetworkCookie)) (name : String)
    (h : ∀ i, findCookie (jarOf (polls i)) name = none) :
    ∀ fuel start, (pollLoop polls name fuel start).2 = none := by
  intro fuel
  induction fuel with
  | zero => intro start; simp [pollLoop]
  | succ n ih =>
    intro start
    rw [pollLoop, h start]
    exact ih (start + 1)

end OCSSO
namespace OCSSO

theorem pollLoop_squelch (polls : Nat → Except String (List NetworkCookie)) (name : String) :
    ∀ fuel start,
      (pollLoop (fun i => Except.ok (jarOf (polls i))) name fuel start).2
        = (pollLoop polls name fuel start).2 := by
  intro fuel
  induction fuel with
  | zero => intro start; simp [pollLoop]
  | succ n ih =>
    intro start
    rw [pollLoop, pollLoop]
    have hjar : jarOf (Except.ok (jarOf (polls start))) = jarOf (polls start) := rfl
    rw [hjar]
    rcases hf : findCookie (jarOf (polls start)) name with _ | c0
    · simp only
      exact ih (start + 1)
    · simp only

theorem pollLoop_events_replicate (polls : Nat → Except String (List NetworkCookie))
    (name : String)
    (hok : ∀ i, pollErrEvents (polls i) = [])
    (hnone : ∀ i, findCookie (jarOf (polls i)) name = none) :
    ∀ fuel start, (pollLoop polls name fuel start).1
      = List.replicate fuel (Event.sleepMs 10) := by
  intro fuel
  induction fuel with
  | zero => intro start; simp [pollLoop]
  | succ n ih =>
    intro start
    rw [pollLoop, hnone start]
    simp only [hok start, List.nil_append, List.replicate_succ]
    rw [ih (start + 1)]

theorem pollLoop_events_on_match (polls : Nat → Except String (List NetworkCookie))
    (name : String) :
    ∀ fuel start i c, (pollLoop polls name fuel start).2 = some (i, c) →
      ∃ evs, (pollLoop polls name fuel start).1
        = evs ++ [Event.logInfo "received successful authentication token cookie from browser"] := by
  intro fuel
  induction fuel with
  | zero => intro start i c h; simp [pollLoop] at h
  | succ n ih =>
    intro start i c h
    rw [pollLoop] at h ⊢
    rcases hf : findCookie (jarOf (polls start)) name with _ | c0
    · rw [hf] at h
      simp only at h ⊢
      obtain ⟨evs, hevs⟩ := ih (start + 1) i c h
      refine ⟨pollErrEvents (polls start) ++ Event.sleepMs 10 :: evs, ?_⟩
      rw [hevs]
      simp
    · exact ⟨pollErrEvents (polls start), rfl⟩

theorem pollLoop_events_shape (polls : Nat → Except String (List NetworkCookie))
    (name : String) :
    ∀ fuel start ev, ev ∈ (pollLoop polls name fuel start).1 →
      ev = Event.sleepMs 10
        ∨ ev = Event.logError "could not get cookies from browser context"
        ∨ ev = Event.logInfo "received successful authentication token cookie from browser" := by
  intro fuel
  induction fuel with
  | zero => intro start ev h; simp [pollLoop] at h
  | succ n ih =>
    intro start ev h
    rw [pollLoop] at h
    have herr : ∀ e ∈ pollErrEvents (polls start),
        e = Event.logError "could not get cookies from browser context" := by
      intro e he
      rcases hp : polls start with s | cs <;> rw [hp] at he <;> simp [pollErrEvents] at he
      · exact he
    rcases hf : findCookie (jarOf (polls start)) name with _ | c0
    · rw [hf] at h
      simp only [List.mem_append, List.mem_cons] at h
      rcases h with h | h | h
      · exact Or.inr (Or.inl (herr ev h))
      · exact Or.inl h
      · exact ih (start + 1) ev h
    · rw [hf] at h
      simp only [List.mem_append, List.mem_singleton] at h
      rcases h with h | h
      · exact Or.inr (Or.inl (herr ev h))
      · exact Or.inr (Or.inr h)

theorem pollLoop_logs_cookie_error (polls : Nat → Except String (List NetworkCookie))
    (name : String) :
    ∀ fuel start i e, polls i = .error e → start ≤ i → i < start + fuel →
      (∀ j, start ≤ j → j ≤ i → findCookie (jarOf (polls j)) name = none) →
      Event.logError "could not get cookies from browser context"
        ∈ (pollLoop polls name fuel start).1 := by
  intro fuel
  induction fuel with
  | zero => intro start i e _ h1 h2 _; omega
  | succ n ih =>
    intro start i e herr h1 h2 hnone
    rw [pollLoop]
    rcases Nat.eq_or_lt_of_le h1 with rfl | hlt
    · rw [hnone start (le_refl _) (le_refl _)]
      simp [pollErrEvents, herr]
    · rw [hnone start (le_refl _) (by omega)]
      simp only [List.mem_append, List.mem_cons]
      right; right
      exact ih (start + 1) i e herr (by omega) (by omega)
        (fun j hj1 hj2 => hnone j (by omega) hj2)

end OCSSO
namespace OCSSO

/-! ### Event-shape lemmas for each stage -/

theorem makePostReq_post_mem (mkReq : String → String → Except String Unit)
    (doPost : String → String → Except String HTTPResponse)
    (payload server u : String) (hd : List (String × String)) (b : String)
    (h : Event.httpPost u hd b ∈ (makePostReq mkReq doPost payload server).1) :
    u = server ∧ hd = requestHeaders ∧ b = payload := by
  unfold makePostReq at h
  rcases hm : mkReq server payload with e | u0
  · rw [hm] at h; simp at h
  · rw [hm] at h
    rcases hp : doPost server payload with e | resp <;> rw [hp] at h <;>
      simp at h <;> exact h

theorem makePostReq_no_other (mkReq : String → String → Except String Unit)
    (doPost : String → String → Except String HTTPResponse)
    (payload server : String) (ev : Event)
    (h : ev ∈ (makePostReq mkReq doPost payload server).1) :
    ev = Event.httpPost server requestHeaders payload
      ∨ (∃ m, ev = Event.logError m) ∨ (∃ m, ev = Event.logInfo m) := by
  unfold makePostReq at h
  rcases hm : mkReq server payload with e | u0
  · rw [hm] at h; simp at h
    exact Or.inr (Or.inl ⟨_, h⟩)
  · rw [hm] at h
    rcases hp : doPost server payload with e | resp <;> rw [hp] at h <;>
      simp at h <;> rcases h with h | h
    · exact Or.inl h
    · exact Or.inr (Or.inl ⟨_, h⟩)
    · exact Or.inl h
    · exact Or.inr (Or.inr ⟨_, h⟩)

theorem initializationStage_ok (get : String → Except String HTTPResponse)
    (mkReq : String → String → Except String Unit)
    (doPost : String → String → Except String HTTPResponse)
    (parse : String → Except String InitializationResponse)
    (url : String) (iR : InitializationResponse) (tgt : String)
    (h : (initializationStage get mkReq doPost parse url).2 = .ok (iR, tgt)) :
    ∃ resp, get url = .ok resp ∧ tgt = resp.finalURL := by
  unfold initializationStage at h
  rcases hg : get url with e | resp
  · rw [hg] at h; simp at h
  · rw [hg] at h
    simp only at h
    rcases hmp : (makePostReq mkReq doPost (initPayload resp.finalURL) resp.finalURL).2
      with c | body
    · rw [hmp] at h; simp at h
    · rw [hmp] at h
      simp only at h
      rcases hpi : parse body with e | result <;> rw [hpi] at h
      · simp at h
      · simp only [Except.ok.injEq, Prod.mk.injEq] at h
        exact ⟨resp, rfl, h.2.symm⟩

end OCSSO
namespace OCSSO

theorem initializationStage_events (get : String → Except String HTTPResponse)
    (mkReq : String → String → Except String Unit)
    (doPost : String → String → Except String HTTPResponse)
    (parse : String → Except String InitializationResponse)
    (url : String) (ev : Event)
    (h : ev ∈ (initializationStage get mkReq doPost parse url).1) :
    ev = Event.httpGet url
      ∨ (∃ resp, get url = .ok resp
          ∧ ev = Event.httpPost resp.finalURL requestHeaders (initPayload resp.finalURL))
      ∨ (∃ m, ev = Event.logError m) ∨ (∃ m, ev = Event.logInfo m) := by
  unfold initializationStage at h
  rcases hg : get url with e | resp
  · rw [hg] at h
    simp only [List.mem_cons, List.mem_singleton] at h
    rcases h with h | h | h
    · exact Or.inl h
    · exact Or.inr (Or.inr (Or.inl ⟨_, h⟩))
    · simp at h
  · rw [hg] at h
    simp only at h
    have lift : ev ∈ (makePostReq mkReq doPost (initPayload resp.finalURL) resp.finalURL).1 →
        ev = Event.httpGet url
          ∨ (∃ resp2, (Except.ok resp : Except String HTTPResponse) = .ok resp2
              ∧ ev = Event.httpPost resp2.finalURL requestHeaders (initPayload resp2.finalURL))
          ∨ (∃ m, ev = Event.logError m) ∨ (∃ m, ev = Event.logInfo m) := by
      intro hm
      rcases makePostReq_no_other mkReq doPost (initPayload resp.finalURL) resp.finalURL ev hm
        with h' | h' | h'
      · exact Or.inr (Or.inl ⟨resp, rfl, h'⟩)
      · exact Or.inr (Or.inr (Or.inl h'))
      · exact Or.inr (Or.inr (Or.inr h'))
    rcases hmp : (makePostReq mkReq doPost (initPayload resp.finalURL) resp.finalURL).2
      with c | body
    · rw [hmp] at h
      simp only [List.mem_cons] at h
      rcases h with h | h
      · exact Or.inl h
      · exact lift h
    · rw [hmp] at h
      simp only at h
      rcases hpi : parse body with e | result <;> rw [hpi] at h <;>
        simp only [List.cons_append, List.mem_cons, List.mem_append, List.mem_singleton,
          List.not_mem_nil, or_false] at h <;>
        rcases h with h | h | h
      · exact Or.inl h
      · exact lift h
      · exact Or.inr (Or.inr (Or.inl ⟨_, h⟩))
      · exact Or.inl h
      · exact lift h
      · exact Or.inr (Or.inr (Or.inr ⟨_, h⟩))

theorem finalizationStage_events (mkReq : String → String → Except String Unit)
    (doPost : String → String → Except String HTTPResponse)
    (parse : String → Except String FinalizationResponse)
    (vpnServer token configHash : String) (ev : Event)
    (h : ev ∈ (finalizationStage mkReq doPost parse vpnServer token configHash).1) :
    ev = Event.httpPost vpnServer requestHeaders (finalPayload configHash token)
      ∨ (∃ m, ev = Event.logError m) ∨ (∃ m, ev = Event.logInfo m) := by
  unfold finalizationStage at h
  simp only at h
  have hpost : ∀ e' ∈ (makePostReq mkReq doPost (finalPayload configHash token) vpnServer).1,
      e' = Event.httpPost vpnServer requestHeaders (finalPayload configHash token)
        ∨ (∃ m, e' = Event.logError m) ∨ (∃ m, e' = Event.logInfo m) :=
    fun e' he' => makePostReq_no_other _ _ _ _ _ he'
  rcases hmp : (makePostReq mkReq doPost (finalPayload configHash token) vpnServer).2
    with c | body
  · rw [hmp] at h
    exact hpost ev h
  · rw [hmp] at h
    simp only at h
    rcases hpf : parse body with e | result <;> rw [hpf] at h
    · simp only [List.mem_append, List.mem_singleton] at h
      rcases h with h | h
      · exact hpost ev h
      · exact Or.inr (Or.inl ⟨_, h⟩)
    · exact hpost ev h

theorem writeOCConfig_events (write : String → String → Except String Unit)
    (cookie fingerprint server ocFile : String) (ev : Event)
    (h : ev ∈ (writeOCConfig write cookie fingerprint server ocFile).1) :
    ev = Event.writeFile ocFile (ocConfigContent cookie fingerprint server) ocFileMode
      ∨ (∃ m, ev = Event.logError m) ∨ (∃ m, ev = Event.logInfo m) := by
  unfold writeOCConfig at h
  simp only at h
  rcases hw : write ocFile (ocConfigContent cookie fingerprint server) with e | u
  · rw [hw] at h
    simp only [List.mem_cons, List.not_mem_nil, or_false] at h
    rcases h with h | h
    · exact Or.inl h
    · exact Or.inr (Or.inl ⟨_, h⟩)
  · rw [hw] at h
    simp only [List.mem_cons, List.not_mem_nil, or_false] at h
    rcases h with h | h
    · exact Or.inl h
    · exact Or.inr (Or.inr ⟨_, h⟩)

theorem setupErrEvents_shape (r : Except String Unit) (msg : String) (ev : Event)
    (h : ev ∈ setupErrEvents r msg) : ev = Event.logError msg := by
  rcases r with e | u <;> simp [setupErrEvents] at h
  exact h

theorem envSetupEvents_shape (env : Env) (ev : Event)
    (h : ev ∈ envSetupEvents env) : ∃ m, ev = Event.logError m := by
  unfold envSetupEvents at h
  simp only [List.mem_append] at h
  rcases h with ((h | h) | h) | h <;> exact ⟨_, setupErrEvents_shape _ _ _ h⟩

end OCSSO
namespace OCSSO

/-- Where every event of a run comes from: the fixed logger line, the setup
error logs, the initialization stage, the navigation, the polling loop, the
browser close, the finalization stage, the post-finalization log, or the
config write — each guarded by the stage results that make it reachable. -/
theorem mainModel_mem (env : Env) (server ocFile : String) (fuel : Nat) (ev : Event)
    (h : ev ∈ (mainModel env server ocFile fuel).1) :
    ev = Event.logInfo "Logger initialized"
    ∨ ev ∈ envSetupEvents env
    ∨ ev ∈ (initializationStage env.httpGet env.newRequest env.httpPost env.parseInit server).1
    ∨ (∃ iR tgt,
        (initializationStage env.httpGet env.newRequest env.httpPost env.parseInit server).2
          = .ok (iR, tgt)
        ∧ (ev = Event.logInfo "waiting to detect successful authentication token cookie on the browser"
           ∨ ev = Event.browserGoto iR.loginURL
           ∨ ev ∈ (pollLoop env.cookiePolls iR.tokenCookieName fuel 0).1
           ∨ ev = Event.browserClose
           ∨ (∃ i c, (pollLoop env.cookiePolls iR.tokenCookieName fuel 0).2 = some (i, c)
               ∧ (ev ∈ (finalizationStage env.newRequest env.httpPost env.parseFinal
                          tgt c.value iR.opaqueValue).1
                  ∨ ev = Event.logInfo "received openconnect server fingerprint and connection cookie successfully"
                  ∨ (∃ fR, (finalizationStage env.newRequest env.httpPost env.parseFinal
                              tgt c.value iR.opaqueValue).2 = .ok fR
                      ∧ ev ∈ (writeOCConfig env.writeFileResult fR.cookie fR.fingerprint
                                tgt ocFile).1))))) := by
  unfold mainModel at h
  simp only at h
  rcases h1 : (initializationStage env.httpGet env.newRequest env.httpPost env.parseInit server).2
    with c | ⟨iR, tgt⟩
  · rw [h1] at h
    simp only [List.cons_append, List.mem_cons, List.mem_append, List.mem_singleton,
      List.not_mem_nil, or_false, false_or, or_assoc] at h
    rcases h with h | h | h
    · exact Or.inl h
    · exact Or.inr (Or.inl h)
    · exact Or.inr (Or.inr (Or.inl h))
  · rw [h1] at h
    simp only at h
    rcases h2 : (pollLoop env.cookiePolls iR.tokenCookieName fuel 0).2 with _ | ⟨i, ck⟩
    · rw [h2] at h
      simp only [List.cons_append, List.mem_cons, List.mem_append, List.mem_singleton,
        List.not_mem_nil, or_false, false_or, or_assoc] at h
      rcases h with h | h | h | h | h | h
      · exact Or.inl h
      · exact Or.inr (Or.inl h)
      · exact Or.inr (Or.inr (Or.inl h))
      · exact Or.inr (Or.inr (Or.inr ⟨iR, tgt, rfl, Or.inl h⟩))
      · exact Or.inr (Or.inr (Or.inr ⟨iR, tgt, rfl, Or.inr (Or.inl h)⟩))
      · exact Or.inr (Or.inr (Or.inr ⟨iR, tgt, rfl, Or.inr (Or.inr (Or.inl h))⟩))
    · rw [h2] at h
      simp only at h
      rcases h3 : (finalizationStage env.newRequest env.httpPost env.parseFinal
          tgt ck.value iR.opaqueValue).2 with c | fR
      · rw [h3] at h
        simp only [List.cons_append, List.mem_cons, List.mem_append, List.mem_singleton,
          List.not_mem_nil, or_false, false_or, or_assoc] at h
        rcases h with h | h | h | h | h | h | h | h
        · exact Or.inl h
        · exact Or.inr (Or.inl h)
        · exact Or.inr (Or.inr (Or.inl h))
        · exact Or.inr (Or.inr (Or.inr ⟨iR, tgt, rfl, Or.inl h⟩))
        · exact Or.inr (Or.inr (Or.inr ⟨iR, tgt, rfl, Or.inr (Or.inl h)⟩))
        · exact Or.inr (Or.inr (Or.inr ⟨iR, tgt, rfl, Or.inr (Or.inr (Or.inl h))⟩))
        · exact Or.inr (Or.inr (Or.inr ⟨iR, tgt, rfl, Or.inr (Or.inr (Or.inr (Or.inl h)))⟩))
        · exact Or.inr (Or.inr (Or.inr ⟨iR, tgt, rfl,
            Or.inr (Or.inr (Or.inr (Or.inr ⟨i, ck, h2, Or.inl h⟩)))⟩))
      · rw [h3] at h
        simp only at h
        rcases h4 : (writeOCConfig env.writeFileResult fR.cookie fR.fingerprint tgt ocFile).2
          with c | u <;> rw [h4] at h <;>
          simp only [List.cons_append, List.mem_cons, List.mem_append, List.mem_singleton,
            List.not_mem_nil, or_false, false_or, or_assoc] at h <;>
          rcases h with h | h | h | h | h | h | h | h | h | h
        · exact Or.inl h
        · exact Or.inr (Or.inl h)
        · exact Or.inr (Or.inr (Or.inl h))
        · exact Or.inr (Or.inr (Or.inr ⟨iR, tgt, rfl, Or.inl h⟩))
        · exact Or.inr (Or.inr (Or.inr ⟨iR, tgt, rfl, Or.inr (Or.inl h)⟩))
        · exact Or.inr (Or.inr (Or.inr ⟨iR, tgt, rfl, Or.inr (Or.inr (Or.inl h))⟩))
        · exact Or.inr (Or.inr (Or.inr ⟨iR, tgt, rfl, Or.inr (Or.inr (Or.inr (Or.inl h)))⟩))
        · exact Or.inr (Or.inr (Or.inr ⟨iR, tgt, rfl,
            Or.inr (Or.inr (Or.inr (Or.inr ⟨i, ck, h2, Or.inl h⟩)))⟩))
        · exact Or.inr (Or.inr (Or.inr ⟨iR, tgt, rfl,
            Or.inr (Or.inr (Or.inr (Or.inr ⟨i, ck, h2, Or.inr (Or.inl h)⟩)))⟩))
        · exact Or.inr (Or.inr (Or.inr ⟨iR, tgt, rfl,
            Or.inr (Or.inr (Or.inr (Or.inr ⟨i, ck, h2, Or.inr (Or.inr ⟨fR, h3, h⟩)⟩)))⟩))
        · exact Or.inl h
        · exact Or.inr (Or.inl h)
        · exact Or.inr (Or.inr (Or.inl h))
        · exact Or.inr (Or.inr (Or.inr ⟨iR, tgt, rfl, Or.inl h⟩))
        · exact Or.inr (Or.inr (Or.inr ⟨iR, tgt, rfl, Or.inr (Or.inl h)⟩))
        · exact Or.inr (Or.inr (Or.inr ⟨iR, tgt, rfl, Or.inr (Or.inr (Or.inl h))⟩))
        · exact Or.inr (Or.inr (Or.inr ⟨iR, tgt, rfl, Or.inr (Or.inr (Or.inr (Or.inl h)))⟩))
        · exact Or.inr (Or.inr (Or.inr ⟨iR, tgt, rfl,
            Or.inr (Or.inr (Or.inr (Or.inr ⟨i, ck, h2, Or.inl h⟩)))⟩))
        · exact Or.inr (Or.inr (Or.inr ⟨iR, tgt, rfl,
            Or.inr (Or.inr (Or.inr (Or.inr ⟨i, ck, h2, Or.inr (Or.inl h)⟩)))⟩))
        · exact Or.inr (Or.inr (Or.inr ⟨iR, tgt, rfl,
            Or.inr (Or.inr (Or.inr (Or.inr ⟨i, ck, h2, Or.inr (Or.inr ⟨fR, h3, h⟩)⟩)))⟩))

end OCSSO
namespace OCSSO

/-- `mid` occurs as a contiguous segment of `s`. -/
def containsSeg (s mid : String) : Prop := ∃ a b, s = a ++ mid ++ b

end OCSSO
namespace OCSSO

theorem finalPayload_authreply (configHash token : String) :
    containsSeg (finalPayload configHash token) "<config-auth client=\"vpn\" type=\"auth-reply\" aggregate-auth-version=\"2\">" := by
  refine ⟨"\n    ", "\n      <version who=\"vpn\">4.7.00136</version>\n      <device-id>linux-64</device-id>\n      <session-token/>\n      <session-id/>\n      <opaque is-for=\"sg\">" ++ configHash ++ "</opaque>\n      <auth>\n        <sso-token>" ++ token ++ "</sso-token>\n      </auth>\n      </config-auth>\n  ", ?_⟩
  unfold finalPayload
  rw [show ("\n    <config-auth client=\"vpn\" type=\"auth-reply\" aggregate-auth-version=\"2\">\n      <version who=\"vpn\">4.7.00136</version>\n      <device-id>linux-64</device-id>\n      <session-token/>\n      <session-id/>\n      <opaque is-for=\"sg\">" : String) = "\n    " ++ "<config-auth client=\"vpn\" type=\"auth-reply\" aggregate-auth-version=\"2\">" ++ "\n      <version who=\"vpn\">4.7.00136</version>\n      <device-id>linux-64</device-id>\n      <session-token/>\n      <session-id/>\n      <opaque is-for=\"sg\">" from rfl]
  simp only [String.append_assoc]

theorem finalPayload_version (configHash token : String) :
    containsSeg (finalPayload configHash token) "<version who=\"vpn\">4.7.00136</version>" := by
  refine ⟨"\n    <config-auth client=\"vpn\" type=\"auth-reply\" aggregate-auth-version=\"2\">\n      ", "\n      <device-id>linux-64</device-id>\n      <session-token/>\n      <session-id/>\n      <opaque is-for=\"sg\">" ++ configHash ++ "</opaque>\n      <auth>\n        <sso-token>" ++ token ++ "</sso-token>\n      </auth>\n      </config-auth>\n  ", ?_⟩
  unfold finalPayload
  rw [show ("\n    <config-auth client=\"vpn\" type=\"auth-reply\" aggregate-auth-version=\"2\">\n      <version who=\"vpn\">4.7.00136</version>\n      <device-id>linux-64</device-id>\n      <session-token/>\n      <session-id/>\n      <opaque is-for=\"sg\">" : String) = "\n    <config-auth client=\"vpn\" type=\"auth-reply\" aggregate-auth-version=\"2\">\n      " ++ "<version who=\"vpn\">4.7.00136</version>" ++ "\n      <device-id>linux-64</device-id>\n      <session-token/>\n      <session-id/>\n      <opaque is-for=\"sg\">" from rfl]
  simp only [String.append_assoc]

theorem initPayload_version (targetVPNServer : String) :
    containsSeg (initPayload targetVPNServer) "<version who=\"vpn\">4.7.00136</version>" := by
  refine ⟨"\n    <config-auth client=\"vpn\" type=\"init\" aggregate-auth-version=\"2\">\n      ", "\n      <device-id>linux-64</device-id>\n      <group-select></group-select>\n\t\t\t<group-access>" ++ targetVPNServer ++ "</group-access>\n      <capabilities>\n        <auth-method>single-sign-on-v2</auth-method>\n      </capabilities>\n    </config-auth>\n\t", ?_⟩
  unfold initPayload
  rw [show ("\n    <config-auth client=\"vpn\" type=\"init\" aggregate-auth-version=\"2\">\n      <version who=\"vpn\">4.7.00136</version>\n      <device-id>linux-64</device-id>\n      <group-select></group-select>\n\t\t\t<group-access>" : String) = "\n    <config-auth client=\"vpn\" type=\"init\" aggregate-auth-version=\"2\">\n      " ++ "<version who=\"vpn\">4.7.00136</version>" ++ "\n      <device-id>linux-64</device-id>\n      <group-select></group-select>\n\t\t\t<group-access>" from rfl]
  simp only [String.append_assoc]

theorem finalPayload_deviceId (configHash token : String) :
    containsSeg (finalPayload configHash token) "<device-id>linux-64</device-id>" := by
  refine ⟨"\n    <config-auth client=\"vpn\" type=\"auth-reply\" aggregate-auth-version=\"2\">\n      <version who=\"vpn\">4.7.00136</version>\n      ", "\n      <session-token/>\n      <session-id/>\n      <opaque is-for=\"sg\">" ++ configHash ++ "</opaque>\n      <auth>\n        <sso-token>" ++ token ++ "</sso-token>\n      </auth>\n      </config-auth>\n  ", ?_⟩
  unfold finalPayload
  rw [show ("\n    <config-auth client=\"vpn\" type=\"auth-reply\" aggregate-auth-version=\"2\">\n      <version who=\"vpn\">4.7.00136</version>\n      <device-id>linux-64</device-id>\n      <session-token/>\n      <session-id/>\n      <opaque is-for=\"sg\">" : String) = "\n    <config-auth client=\"vpn\" type=\"auth-reply\" aggregate-auth-version=\"2\">\n      <version who=\"vpn\">4.7.00136</version>\n      " ++ "<device-id>linux-64</device-id>" ++ "\n      <session-token/>\n      <session-id/>\n      <opaque is-for=\"sg\">" from rfl]
  simp only [String.append_assoc]

theorem initPayload_deviceId (targetVPNServer : String) :
    containsSeg (initPayload targetVPNServer) "<device-id>linux-64</device-id>" := by
  refine ⟨"\n    <config-auth client=\"vpn\" type=\"init\" aggregate-auth-version=\"2\">\n      <version who=\"vpn\">4.7.00136</version>\n      ", "\n      <group-select></group-select>\n\t\t\t<group-access>" ++ targetVPNServer ++ "</group-access>\n      <capabilities>\n        <auth-method>single-sign-on-v2</auth-method>\n      </capabilities>\n    </config-auth>\n\t", ?_⟩
  unfold initPayload
  rw [show ("\n    <config-auth client=\"vpn\" type=\"init\" aggregate-auth-version=\"2\">\n      <version who=\"vpn\">4.7.00136</version>\n      <device-id>linux-64</device-id>\n      <group-select></group-select>\n\t\t\t<group-access>" : String) = "\n    <config-auth client=\"vpn\" type=\"init\" aggregate-auth-version=\"2\">\n      <version who=\"vpn\">4.7.00136</version>\n      " ++ "<device-id>linux-64</device-id>" ++ "\n      <group-select></group-select>\n\t\t\t<group-access>" from rfl]
  simp only [String.append_assoc]

theorem finalPayload_sessionToken (configHash token : String) :
    containsSeg (finalPayload configHash token) "<session-token/>" := by
  refine ⟨"\n    <config-auth client=\"vpn\" type=\"auth-reply\" aggregate-auth-version=\"2\">\n      <version who=\"vpn\">4.7.00136</version>\n      <device-id>linux-64</device-id>\n      ", "\n      <session-id/>\n      <opaque is-for=\"sg\">" ++ configHash ++ "</opaque>\n      <auth>\n        <sso-token>" ++ token ++ "</sso-token>\n      </auth>\n      </config-auth>\n  ", ?_⟩
  unfold finalPayload
  rw [show ("\n    <config-auth client=\"vpn\" type=\"auth-reply\" aggregate-auth-version=\"2\">\n      <version who=\"vpn\">4.7.00136</version>\n      <device-id>linux-64</device-id>\n      <session-token/>\n      <session-id/>\n      <opaque is-for=\"sg\">" : String) = "\n    <config-auth client=\"vpn\" type=\"auth-reply\" aggregate-auth-version=\"2\">\n      <version who=\"vpn\">4.7.00136</version>\n      <device-id>linux-64</device-id>\n      " ++ "<session-token/>" ++ "\n      <session-id/>\n      <opaque is-for=\"sg\">" from rfl]
  simp only [String.append_assoc]

theorem finalPayload_sessionId (configHash token : String) :
    containsSeg (finalPayload configHash token) "<session-id/>" := by
  refine ⟨"\n    <config-auth client=\"vpn\" type=\"auth-reply\" aggregate-auth-version=\"2\">\n      <version who=\"vpn\">4.7.00136</version>\n      <device-id>linux-64</device-id>\n      <session-token/>\n      ", "\n      <opaque is-for=\"sg\">" ++ configHash ++ "</opaque>\n      <auth>\n        <sso-token>" ++ token ++ "</sso-token>\n      </auth>\n      </config-auth>\n  ", ?_⟩
  unfold finalPayload
  rw [show ("\n    <config-auth client=\"vpn\" type=\"auth-reply\" aggregate-auth-version=\"2\">\n      <version who=\"vpn\">4.7.00136</version>\n      <device-id>linux-64</device-id>\n      <session-token/>\n      <session-id/>\n      <opaque is-for=\"sg\">" : String) = "\n    <config-auth client=\"vpn\" type=\"auth-reply\" aggregate-auth-version=\"2\">\n      <version who=\"vpn\">4.7.00136</version>\n      <device-id>linux-64</device-id>\n      <session-token/>\n      " ++ "<session-id/>" ++ "\n      <opaque is-for=\"sg\">" from rfl]
  simp only [String.append_assoc]

theorem finalPayload_opaqueEcho (configHash token : String) :
    containsSeg (finalPayload configHash token)
      ("<opaque is-for=\"sg\">" ++ configHash ++ "</opaque>") := by
  refine ⟨"\n    <config-auth client=\"vpn\" type=\"auth-reply\" aggregate-auth-version=\"2\">\n      <version who=\"vpn\">4.7.00136</version>\n      <device-id>linux-64</device-id>\n      <session-token/>\n      <session-id/>\n      ", "\n      <auth>\n        <sso-token>" ++ token ++ "</sso-token>\n      </auth>\n      </config-auth>\n  ", ?_⟩
  unfold finalPayload
  rw [show ("\n    <config-auth client=\"vpn\" type=\"auth-reply\" aggregate-auth-version=\"2\">\n      <version who=\"vpn\">4.7.00136</version>\n      <device-id>linux-64</device-id>\n      <session-token/>\n      <session-id/>\n      <opaque is-for=\"sg\">" : String) = "\n    <config-auth client=\"vpn\" type=\"auth-reply\" aggregate-auth-version=\"2\">\n      <version who=\"vpn\">4.7.00136</version>\n      <device-id>linux-64</device-id>\n      <session-token/>\n      <session-id/>\n      " ++ "<opaque is-for=\"sg\">" from rfl,
    show ("</opaque>\n      <auth>\n        <sso-token>" : String) = "</opaque>" ++ "\n      <auth>\n        <sso-token>" from rfl]
  simp only [String.append_assoc]

theorem finalPayload_ssoUnderAuth (configHash token : String) :
    containsSeg (finalPayload configHash token)
      ("<auth>\n        <sso-token>" ++ token ++ "</sso-token>\n      </auth>") := by
  refine ⟨"\n    <config-auth client=\"vpn\" type=\"auth-reply\" aggregate-auth-version=\"2\">\n      <version who=\"vpn\">4.7.00136</version>\n      <device-id>linux-64</device-id>\n      <session-token/>\n      <session-id/>\n      <opaque is-for=\"sg\">" ++ configHash ++ "</opaque>\n      ", "\n      </config-auth>\n  ", ?_⟩
  unfold finalPayload
  rw [show ("</opaque>\n      <auth>\n        <sso-token>" : String) = "</opaque>\n      " ++ "<auth>\n        <sso-token>" from rfl,
    show ("</sso-token>\n      </auth>\n      </config-auth>\n  " : String) = "</sso-token>\n      </auth>" ++ "\n      </config-auth>\n  " from rfl]
  simp only [String.append_assoc]

end OCSSO
namespace OCSSO

theorem makePostReq_error_one (mkReq : String → String → Except String Unit)
    (doPost : String → String → Except String HTTPResponse)
    (payload server : String) (c : Nat)
    (h : (makePostReq mkReq doPost payload server).2 = .error c) : c = 1 := by
  unfold makePostReq at h
  rcases hm : mkReq server payload with e | u <;> rw [hm] at h
  · simp at h; omega
  · rcases hp : doPost server payload with e | resp <;> rw [hp] at h <;> simp at h
    omega

theorem initializationStage_error_one (get : String → Except String HTTPResponse)
    (mkReq : String → String → Except String Unit)
    (doPost : String → String → Except String HTTPResponse)
    (parse : String → Except String InitializationResponse)
    (url : String) (c : Nat)
    (h : (initializationStage get mkReq doPost parse url).2 = .error c) : c = 1 := by
  unfold initializationStage at h
  rcases hg : get url with e | resp <;> rw [hg] at h
  · simp at h; omega
  · simp only at h
    rcases hmp : (makePostReq mkReq doPost (initPayload resp.finalURL) resp.finalURL).2
      with c2 | body <;> rw [hmp] at h
    · simp at h
      exact h ▸ makePostReq_error_one _ _ _ _ _ hmp
    · simp only at h
      rcases hpi : parse body with e | result <;> rw [hpi] at h <;> simp at h
      omega

theorem finalizationStage_error_one (mkReq : String → String → Except String Unit)
    (doPost : String → String → Except String HTTPResponse)
    (parse : String → Except String FinalizationResponse)
    (vpnServer token configHash : String) (c : Nat)
    (h : (finalizationStage mkReq doPost parse vpnServer token configHash).2 = .error c) :
    c = 1 := by
  unfold finalizationStage at h
  simp only at h
  rcases hmp : (makePostReq mkReq doPost (finalPayload configHash token) vpnServer).2
    with c2 | body <;> rw [hmp] at h
  · simp at h
    exact h ▸ makePostReq_error_one _ _ _ _ _ hmp
  · simp only at h
    rcases hpf : parse body with e | result <;> rw [hpf] at h <;> simp at h
    omega

theorem writeOCConfig_error_one (write : String → String → Except String Unit)
    (cookie fingerprint server ocFile : String) (c : Nat)
    (h : (writeOCConfig write cookie fingerprint server ocFile).2 = .error c) : c = 1 := by
  unfold writeOCConfig at h
  simp only at h
  rcases hw : write ocFile (ocConfigContent cookie fingerprint server) with e | u <;>
    rw [hw] at h <;> simp at h
  omega

/-- Any run's outcome is exit 0, exit 1, or still running: every fatal path
exits with code 1. -/
theorem mainOutcome_cases (env : Env) (server ocFile : String) (fuel : Nat) :
    mainOutcome env server ocFile fuel = .exited 0
    ∨ mainOutcome env server ocFile fuel = .exited 1
    ∨ mainOutcome env server ocFile fuel = .running := by
  unfold mainOutcome
  rcases h1 : (initializationStage env.httpGet env.newRequest env.httpPost env.parseInit server).2
    with c | ⟨iR, tgt⟩
  · simp only
    exact Or.inr (Or.inl (by rw [initializationStage_error_one _ _ _ _ _ _ h1]))
  · simp only
    rcases h2 : (pollLoop env.cookiePolls iR.tokenCookieName fuel 0).2 with _ | ⟨i, ck⟩
    · exact Or.inr (Or.inr rfl)
    · simp only
      rcases h3 : (finalizationStage env.newRequest env.httpPost env.parseFinal
          tgt ck.value iR.opaqueValue).2 with c | fR
      · exact Or.inr (Or.inl (by rw [finalizationStage_error_one _ _ _ _ _ _ _ h3]))
      · simp only
        rcases h4 : (writeOCConfig env.writeFileResult fR.cookie fR.fingerprint tgt ocFile).2
          with c | u
        · exact Or.inr (Or.inl (by rw [writeOCConfig_error_one _ _ _ _ _ _ h4]))
        · exact Or.inl rfl

/-- With every file write failing, no run exits 0. -/
theorem mainModel_write_fail (env : Env) (server ocFile : String) (fuel : Nat)
    (hw : ∀ p cnt, ∃ e, env.writeFileResult p cnt = .error e) :
    (mainModel env server ocFile fuel).2 ≠ .exited 0 := by
  rw [mainModel_snd]
  unfold mainOutcome
  rcases h1 : (initializationStage env.httpGet env.newRequest env.httpPost env.parseInit server).2
    with c | ⟨iR, tgt⟩
  · simp only
    rw [initializationStage_error_one _ _ _ _ _ _ h1]
    simp
  · simp only
    rcases h2 : (pollLoop env.cookiePolls iR.tokenCookieName fuel 0).2 with _ | ⟨i, ck⟩
    · simp
    · simp only
      rcases h3 : (finalizationStage env.newRequest env.httpPost env.parseFinal
          tgt ck.value iR.opaqueValue).2 with c | fR
      · rw [finalizationStage_error_one _ _ _ _ _ _ _ h3]
        simp
      · simp only
        obtain ⟨e, he⟩ := hw ocFile (ocConfigContent fR.cookie fR.fingerprint tgt)
        have h4 : (writeOCConfig env.writeFileResult fR.cookie fR.fingerprint tgt ocFile).2
            = .error 1 := by
          unfold writeOCConfig
          simp only
          rw [he]
        rw [h4]
        simp

end OCSSO
namespace OCSSO

/-- Every event of the setup block appears in the run's trace (each of the
five branch shapes of `mainModel` starts with the setup events). -/
theorem mainModel_setup_mem (env : Env) (server ocFile : String) (fuel : Nat) (ev : Event)
    (h : ev ∈ envSetupEvents env) : ev ∈ (mainModel env server ocFile fuel).1 := by
  unfold mainModel
  simp only
  rcases h1 : (initializationStage env.httpGet env.newRequest env.httpPost env.parseInit server).2
    with c | ⟨iR, tgt⟩
  · simp [h]
  · simp only
    rcases h2 : (pollLoop env.cookiePolls iR.tokenCookieName fuel 0).2 with _ | ⟨i, ck⟩
    · simp [h]
    · simp only
      rcases h3 : (finalizationStage env.newRequest env.httpPost env.parseFinal
          tgt ck.value iR.opaqueValue).2 with c | fR
      · simp [h]
      · simp only
        rcases h4 : (writeOCConfig env.writeFileResult fR.cookie fR.fingerprint tgt ocFile).2
          with c | u <;> simp [h]

/-- Shape of a run in which the polling loop never finds the cookie. -/
theorem mainModel_running_trace (env : Env) (server ocFile : String) (fuel : Nat)
    (iR : InitializationResponse) (tgt : String)
    (hinit : (initializationStage env.httpGet env.newRequest env.httpPost
        env.parseInit server).2 = .ok (iR, tgt))
    (hloop : (pollLoop env.cookiePolls iR.tokenCookieName fuel 0).2 = none) :
    mainModel env server ocFile fuel
      = (Event.logInfo "Logger initialized" :: envSetupEvents env
          ++ (initializationStage env.httpGet env.newRequest env.httpPost env.parseInit server).1
          ++ [Event.logInfo "waiting to detect successful authentication token cookie on the browser",
              Event.browserGoto iR.loginURL]
          ++ (pollLoop env.cookiePolls iR.tokenCookieName fuel 0).1,
         .running) := by
  unfold mainModel
  simp only
  rw [hinit]
  simp only
  rw [hloop]

/-- The setup-call results do not affect the run's outcome. -/
theorem mainOutcome_setup_errors (env : Env) (e : String) (server ocFile : String) (fuel : Nat) :
    mainOutcome (env.withSetupErrors e) server ocFile fuel
      = mainOutcome env server ocFile fuel := rfl

/-- Replacing failed cookie reads by the empty jar the loop iterates over
anyway does not change the run's outcome. -/
theorem mainOutcome_squelch (env : Env) (server ocFile : String) (fuel : Nat) :
    mainOutcome env.cookiesSquelched server ocFile fuel
      = mainOutcome env server ocFile fuel := by
  unfold mainOutcome
  rcases h1 : (initializationStage env.httpGet env.newRequest env.httpPost env.parseInit server).2
    with c | ⟨iR, tgt⟩
  · rw [show (Env.cookiesSquelched env).httpGet = env.httpGet from rfl,
      show (Env.cookiesSquelched env).newRequest = env.newRequest from rfl,
      show (Env.cookiesSquelched env).httpPost = env.httpPost from rfl,
      show (Env.cookiesSquelched env).parseInit = env.parseInit from rfl, h1]
  · rw [show (Env.cookiesSquelched env).httpGet = env.httpGet from rfl,
      show (Env.cookiesSquelched env).newRequest = env.newRequest from rfl,
      show (Env.cookiesSquelched env).httpPost = env.httpPost from rfl,
      show (Env.cookiesSquelched env).parseInit = env.parseInit from rfl, h1]
    simp only
    have hsq : (Env.cookiesSquelched env).cookiePolls
        = fun i => Except.ok (jarOf (env.cookiePolls i)) := rfl
    rw [hsq, pollLoop_squelch env.cookiePolls iR.tokenCookieName fuel 0]
    rcases h2 : (pollLoop env.cookiePolls iR.tokenCookieName fuel 0).2 with _ | ⟨i, ck⟩
    · rfl
    · simp only
      rw [show (Env.cookiesSquelched env).parseFinal = env.parseFinal from rfl,
        show (Env.cookiesSquelched env).writeFileResult = env.writeFileResult from rfl]

end OCSSO
namespace OCSSO

/-- Shape of a run whose initial GET fails: the error is logged and the
process exits 1 with no further events. -/
theorem mainModel_get_fail (env : Env) (server ocFile : String) (fuel : Nat) (e : String)
    (hget : env.httpGet server = .error e) :
    mainModel env server ocFile fuel
      = (Event.logInfo "Logger initialized" :: envSetupEvents env
          ++ [Event.httpGet server, Event.logError "Failed to get url"], .exited 1) := by
  have hi : initializationStage env.httpGet env.newRequest env.httpPost env.parseInit server
      = ([Event.httpGet server, Event.logError "Failed to get url"], .error 1) := by
    unfold initializationStage
    rw [hget]
  unfold mainModel
  simp only
  rw [hi]

/-- Shape of a run whose init POST fails at the transport level. -/
theorem mainModel_initPost_fail (env : Env) (server ocFile : String) (fuel : Nat)
    (resp : HTTPResponse) (e : String)
    (hget : env.httpGet server = .ok resp)
    (hreq : env.newRequest resp.finalURL (initPayload resp.finalURL) = .ok ())
    (hpost : env.httpPost resp.finalURL (initPayload resp.finalURL) = .error e) :
    mainModel env server ocFile fuel
      = (Event.logInfo "Logger initialized" :: envSetupEvents env
          ++ [Event.httpGet server,
              Event.httpPost resp.finalURL requestHeaders (initPayload resp.finalURL),
              Event.logError "failed to POST request to the server"],
         .exited 1) := by
  have hmp : makePostReq env.newRequest env.httpPost (initPayload resp.finalURL) resp.finalURL
      = ([Event.httpPost resp.finalURL requestHeaders (initPayload resp.finalURL),
          Event.logError "failed to POST request to the server"], .error 1) := by
    unfold makePostReq
    rw [hreq, hpost]
  have hi : initializationStage env.httpGet env.newRequest env.httpPost env.parseInit server
      = ([Event.httpGet server,
          Event.httpPost resp.finalURL requestHeaders (initPayload resp.finalURL),
          Event.logError "failed to POST request to the server"], .error 1) := by
    unfold initializationStage
    rw [hget]
    simp only
    rw [hmp]
  unfold mainModel
  simp only
  rw [hi]

/-- Shape of a run whose init response fails to unmarshal. -/
theorem mainModel_initParse_fail (env : Env) (server ocFile : String) (fuel : Nat)
    (resp resp2 : HTTPResponse) (e : String)
    (hget : env.httpGet server = .ok resp)
    (hreq : env.newRequest resp.finalURL (initPayload resp.finalURL) = .ok ())
    (hpost : env.httpPost resp.finalURL (initPayload resp.finalURL) = .ok resp2)
    (hparse : env.parseInit resp2.bodyBytes = .error e) :
    mainModel env server ocFile fuel
      = (Event.logInfo "Logger initialized" :: envSetupEvents env
          ++ [Event.httpGet server,
              Event.httpPost resp.finalURL requestHeaders (initPayload resp.finalURL),
              Event.logInfo "successfullly received response from server",
              Event.logError "failed to unmarshal the received response body to XML"],
         .exited 1) := by
  have hmp : makePostReq env.newRequest env.httpPost (initPayload resp.finalURL) resp.finalURL
      = ([Event.httpPost resp.finalURL requestHeaders (initPayload resp.finalURL),
          Event.logInfo "successfullly received response from server"], .ok resp2.bodyBytes) := by
    unfold makePostReq
    rw [hreq, hpost]
  have hi : initializationStage env.httpGet env.newRequest env.httpPost env.parseInit server
      = ([Event.httpGet server,
          Event.httpPost resp.finalURL requestHeaders (initPayload resp.finalURL),
          Event.logInfo "successfullly received response from server",
          Event.logError "failed to unmarshal the received response body to XML"], .error 1) := by
    unfold initializationStage
    rw [hget]
    simp only
    rw [hmp]
    simp only
    rw [hparse]
    rfl
  unfold mainModel
  simp only
  rw [hi]

/-- A finalization-stage failure after a captured cookie exits the run
with code 1. -/
theorem mainModel_fin_fail (env : Env) (server ocFile : String) (fuel : Nat)
    (iR : InitializationResponse) (tgt : String) (i : Nat) (ck : NetworkCookie) (c : Nat)
    (hinit : (initializationStage env.httpGet env.newRequest env.httpPost
        env.parseInit server).2 = .ok (iR, tgt))
    (hloop : (pollLoop env.cookiePolls iR.tokenCookieName fuel 0).2 = some (i, ck))
    (hfin : (finalizationStage env.newRequest env.httpPost env.parseFinal
        tgt ck.value iR.opaqueValue).2 = .error c) :
    (mainModel env server ocFile fuel).2 = .exited 1 := by
  rw [mainModel_snd]
  unfold mainOutcome
  rw [hinit]
  simp only
  rw [hloop]
  simp only
  rw [hfin]
  simp [finalizationStage_error_one _ _ _ _ _ _ _ hfin]

end OCSSO
namespace OCSSO

/-! ### Concrete oracles used by witnesses and counterexamples -/

/-- A fully successful oracle: the GET resolves to a second host, the POSTs
succeed and echo their body, the token cookie appears on the second poll
behind a decoy cookie, parsing yields fixed responses, and the file write
succeeds. -/
def okEnv : Env where
  playwrightRun := .ok ()
  firefoxLaunch := .ok ()
  newContext := .ok ()
  newPage := .ok ()
  httpGet := fun _ => .ok ⟨200, "", none, "https://vpn2.example.com"⟩
  newRequest := fun _ _ => .ok ()
  httpPost := fun _ body => .ok ⟨200, body, none, "https://vpn2.example.com"⟩
  cookiePolls := fun i =>
    if i = 0 then .ok [⟨"decoy", "x"⟩]
    else .ok [⟨"decoy", "x"⟩, ⟨"ssotoken", "tok456"⟩, ⟨"ssotoken", "later"⟩]
  parseInit := fun _ =>
    .ok ⟨"https://idp.example.com/login", "https://idp.example.com/done", "ssotoken", "abc123"⟩
  parseFinal := fun _ => .ok ⟨"sesscookie", "fp789"⟩
  writeFileResult := fun _ _ => .ok ()

/-- The successful oracle with all four browser-setup calls failing and the
first `context.Cookies()` call failing. -/
def badSetupEnv : Env :=
  { okEnv with
      playwrightRun := .error "E"
      firefoxLaunch := .error "E"
      newContext := .error "E"
      newPage := .error "E"
      cookiePolls := fun i => if i = 0 then .error "E" else okEnv.cookiePolls i }

end OCSSO
namespace OCSSO

/-- C5: for every cookie, fingerprint and server string, the Config Writer
emits a write of exactly the three newline-terminated lines
`cookie=<cookie>`, `servercert=<fingerprint>`, `# host=<server>`; in
particular for C1/F1/https://vpn.example.com the content is byte-exactly
"cookie=C1\nservercert=F1\n# host=https://vpn.example.com\n". -/
theorem C5_config_writer_content (write : String → String → Except String Unit)
    (cookie fingerprint server ocFile : String) :
    (∃ tail r, writeOCConfig write cookie fingerprint server ocFile
        = (Event.writeFile ocFile (ocConfigContent cookie fingerprint server) ocFileMode
            :: tail, r))
    ∧ ocConfigContent cookie fingerprint server
        = ("cookie=" ++ cookie ++ "\n")
            ++ (("servercert=" ++ fingerprint ++ "\n") ++ ("# host=" ++ server ++ "\n"))
    ∧ ocConfigContent "C1" "F1" "https://vpn.example.com"
        = "cookie=C1\nservercert=F1\n# host=https://vpn.example.com\n" := by
  refine ⟨?_, ?_, rfl⟩
  · unfold writeOCConfig
    simp only
    rcases hw : write ocFile (ocConfigContent cookie fingerprint server) with e | u <;>
      exact ⟨_, _, rfl⟩
  · unfold ocConfigContent
    rw [show ("\nservercert=" : String) = "\n" ++ "servercert=" from rfl,
      show ("\n# host=" : String) = "\n" ++ "# host=" from rfl]
    simp only [String.append_assoc]

/-- C9: writing the credential bundle into an existing path replaces the
content but keeps the pre-existing permission bits; 0600 applies only when
the file is newly created; other paths are untouched. -/
theorem C9_existing_file_keeps_mode (fs : FS) (cookie fingerprint server ocFile : String) :
    (∀ old m, fs ocFile = some (old, m) →
        writeOCConfigFS fs cookie fingerprint server ocFile ocFile
          = some (ocConfigContent cookie fingerprint server, m))
    ∧ (fs ocFile = none →
        writeOCConfigFS fs cookie fingerprint server ocFile ocFile
          = some (ocConfigContent cookie fingerprint server, ocFileMode))
    ∧ (∀ p, p ≠ ocFile → writeOCConfigFS fs cookie fingerprint server ocFile p = fs p) := by
  unfold writeOCConfigFS osWriteFile
  refine ⟨?_, ?_, ?_⟩
  · intro old m h
    simp [h]
  · intro h
    simp [h]
  · intro p hp
    simp [hp]

/-- A file system holding a world-readable credential file. -/
def preexistingFS : FS := fun p => if p = "cookie.txt" then some ("old", 0o644) else none

/-- Witness for C9: a pre-existing 0644 file stays 0644 after the write. -/
theorem C9_existing_file_keeps_mode_witness :
    preexistingFS "cookie.txt" = some ("old", 420)
    ∧ writeOCConfigFS preexistingFS "sesscookie" "fp789" "https://vpn2.example.com"
        "cookie.txt" "cookie.txt"
      = some (ocConfigContent "sesscookie" "fp789" "https://vpn2.example.com", 420) :=
  ⟨rfl, (C9_existing_file_keeps_mode preexistingFS "sesscookie" "fp789"
      "https://vpn2.example.com" "cookie.txt").1 "old" 420 rfl⟩

/-- C10: the gateway client never inspects the response status code and the
body-read error is discarded — replacing either changes nothing about
`makePostReq`; the initialization stage's GET likewise ignores status, body
bytes and read error, using only the resolved URL; and an ok POST response
yields exactly its (possibly empty or truncated) body bytes. -/
theorem C10_status_and_read_error_ignored :
    (∀ (mkReq : String → String → Except String Unit)
       (doPost : String → String → Except String HTTPResponse)
       (payload server : String) (st : Nat) (er : Option String),
      makePostReq mkReq
          (fun u b => (doPost u b).map
            (fun r => { r with statusCode := st, bodyReadError := er }))
          payload server
        = makePostReq mkReq doPost payload server)
    ∧ (∀ (get : String → Except String HTTPResponse)
         (mkReq : String → String → Except String Unit)
         (doPost : String → String → Except String HTTPResponse)
         (parse : String → Except String InitializationResponse)
         (url : String) (st : Nat) (bb : String) (er : Option String),
      initializationStage
          (fun u => (get u).map
            (fun r => { r with statusCode := st, bodyBytes := bb, bodyReadError := er }))
          mkReq doPost parse url
        = initializationStage get mkReq doPost parse url)
    ∧ (∀ (mkReq : String → String → Except String Unit)
         (doPost : String → String → Except String HTTPResponse)
         (payload server : String) (resp : HTTPResponse),
      mkReq server payload = .ok () → doPost server payload = .ok resp →
      (makePostReq mkReq doPost payload server).2 = .ok resp.bodyBytes) := by
  refine ⟨?_, ?_, ?_⟩
  · intro mkReq doPost payload server st er
    unfold makePostReq
    rcases hm : mkReq server payload with e | u
    · rfl
    · rcases hp : doPost server payload with e | r <;> simp [Except.map, hp]
  · intro get mkReq doPost parse url st bb er
    unfold initializationStage
    rcases hg : get url with e | r <;> simp [Except.map, hg]
  · intro mkReq doPost payload server resp h1 h2
    unfold makePostReq
    rw [h1]
    simp only
    rw [h2]

/-- Witness for C10: a POST answered with status 500 and a discarded
read error still returns its (truncated) body bytes. -/
theorem C10_status_and_read_error_ignored_witness :
    (makePostReq okEnv.newRequest
        (fun _ _ => .ok ⟨500, "partial", some "unexpected EOF", "https://vpn2.example.com"⟩)
        "payload" "https://vpn2.example.com").2 = .ok "partial" :=
  C10_status_and_read_error_ignored.2.2 okEnv.newRequest
    (fun _ _ => .ok ⟨500, "partial", some "unexpected EOF", "https://vpn2.example.com"⟩)
    "payload" "https://vpn2.example.com"
    ⟨500, "partial", some "unexpected EOF", "https://vpn2.example.com"⟩ rfl rfl

end OCSSO
namespace OCSSO

/-- C7: every gateway POST of any run carries exactly the fixed header set:
the VPN-client User-Agent, Accept */*, identity encoding, the
X-Transcend-Version/X-Aggregate-Auth/X-Support-HTTP-Auth capabilities and
the form-url-encoded content type — although the body is XML. -/
theorem C7_post_headers (env : Env) (server ocFile : String) (fuel : Nat) :
    (∀ u hd b, Event.httpPost u hd b ∈ (mainModel env server ocFile fuel).1 →
        hd = requestHeaders)
    ∧ requestHeaders
        = [("User-Agent", "AnyConnect Linux_64 4.7.00136"),
           ("Accept", "*/*"),
           ("Accept-Encoding", "identity"),
           ("X-Transcend-Version", "1"),
           ("X-Aggregate-Auth", "1"),
           ("X-Support-HTTP-Auth", "true"),
           ("Content-Type", "application/x-www-form-urlencoded")] := by
  refine ⟨?_, rfl⟩
  intro u hd b hmem
  rcases mainModel_mem env server ocFile fuel _ hmem with h | h | h | ⟨iR, tgt, hinit, h⟩
  · simp at h
  · obtain ⟨m, hm⟩ := envSetupEvents_shape env _ h
    simp at hm
  · rcases initializationStage_events _ _ _ _ _ _ h with h' | ⟨resp, hg, h'⟩ | ⟨m, h'⟩ | ⟨m, h'⟩
    · simp at h'
    · injection h' with h1 h2 h3
    · simp at h'
    · simp at h'
  · rcases h with h | h | h | h | ⟨i, ck, hloop, h⟩
    · simp at h
    · simp at h
    · rcases pollLoop_events_shape env.cookiePolls iR.tokenCookieName fuel 0 _ h
        with h' | h' | h' <;> simp at h'
    · simp at h
    · rcases h with h | h | ⟨fR, hfin, h⟩
      · rcases finalizationStage_events _ _ _ _ _ _ _ h with h' | ⟨m, h'⟩ | ⟨m, h'⟩
        · injection h' with h1 h2 h3
        · simp at h'
        · simp at h'
      · simp at h
      · rcases writeOCConfig_events _ _ _ _ _ _ h with h' | ⟨m, h'⟩ | ⟨m, h'⟩ <;> simp at h'

set_option maxRecDepth 8192 in
/-- Witness for C7: the init POST of a successful concrete run carries the
fixed headers. -/
theorem C7_post_headers_witness :
    Event.httpPost "https://vpn2.example.com" requestHeaders
        (initPayload "https://vpn2.example.com")
      ∈ (mainModel okEnv "https://vpn.example.com" "cookie.txt" 2).1
    ∧ requestHeaders = requestHeaders :=
  ⟨by decide, (C7_post_headers okEnv "https://vpn.example.com" "cookie.txt" 2).1
      "https://vpn2.example.com" requestHeaders (initPayload "https://vpn2.example.com")
      (by decide)⟩

/-- C2: once the initial GET has resolved the server URL, that resolved URL
is the target of every gateway POST of the run (both stages) and the host
recorded in any file the run writes. -/
theorem C2_resolved_url_consistent (env : Env) (server ocFile : String) (fuel : Nat)
    (resp : HTTPResponse) (hget : env.httpGet server = .ok resp) :
    (∀ u hd b, Event.httpPost u hd b ∈ (mainModel env server ocFile fuel).1 →
        u = resp.finalURL)
    ∧ (∀ p cnt m, Event.writeFile p cnt m ∈ (mainModel env server ocFile fuel).1 →
        ∃ ck fp, cnt = ocConfigContent ck fp resp.finalURL) := by
  constructor
  · intro u hd b hmem
    rcases mainModel_mem env server ocFile fuel _ hmem with h | h | h | ⟨iR, tgt, hinit, h⟩
    · simp at h
    · obtain ⟨m, hm⟩ := envSetupEvents_shape env _ h
      simp at hm
    · rcases initializationStage_events _ _ _ _ _ _ h with h' | ⟨resp2, hg, h'⟩ | ⟨m, h'⟩ | ⟨m, h'⟩
      · simp at h'
      · have : resp2 = resp := by
          rw [hget] at hg
          exact (Except.ok.inj hg).symm
        subst this
        injection h' with h1 h2 h3
      · simp at h'
      · simp at h'
    · have htgt : tgt = resp.finalURL := by
        obtain ⟨respX, hgX, htX⟩ :=
          initializationStage_ok env.httpGet env.newRequest env.httpPost env.parseInit
            server iR tgt hinit
        rw [hget] at hgX
        rw [htX, (Except.ok.inj hgX).symm]
      rcases h with h | h | h | h | ⟨i, ck, hloop, h⟩
      · simp at h
      · simp at h
      · rcases pollLoop_events_shape env.cookiePolls iR.tokenCookieName fuel 0 _ h
          with h' | h' | h' <;> simp at h'
      · simp at h
      · rcases h with h | h | ⟨fR, hfin, h⟩
        · rcases finalizationStage_events _ _ _ _ _ _ _ h with h' | ⟨m, h'⟩ | ⟨m, h'⟩
          · injection h' with h1 h2 h3
            rw [h1, htgt]
          · simp at h'
          · simp at h'
        · simp at h
        · rcases writeOCConfig_events _ _ _ _ _ _ h with h' | ⟨m, h'⟩ | ⟨m, h'⟩ <;> simp at h'
  · intro p cnt m hmem
    rcases mainModel_mem env server ocFile fuel _ hmem with h | h | h | ⟨iR, tgt, hinit, h⟩
    · simp at h
    · obtain ⟨m2, hm⟩ := envSetupEvents_shape env _ h
      simp at hm
    · rcases initializationStage_events _ _ _ _ _ _ h with h' | ⟨resp2, hg, h'⟩ | ⟨m2, h'⟩ | ⟨m2, h'⟩
        <;> simp at h'
    · have htgt : tgt = resp.finalURL := by
        obtain ⟨respX, hgX, htX⟩ :=
          initializationStage_ok env.httpGet env.newRequest env.httpPost env.parseInit
            server iR tgt hinit
        rw [hget] at hgX
        rw [htX, (Except.ok.inj hgX).symm]
      rcases h with h | h | h | h | ⟨i, ck, hloop, h⟩
      · simp at h
      · simp at h
      · rcases pollLoop_events_shape env.cookiePolls iR.tokenCookieName fuel 0 _ h
          with h' | h' | h' <;> simp at h'
      · simp at h
      · rcases h with h | h | ⟨fR, hfin, h⟩
        · rcases finalizationStage_events _ _ _ _ _ _ _ h with h' | ⟨m2, h'⟩ | ⟨m2, h'⟩
            <;> simp at h'
        · simp at h
        · rcases writeOCConfig_events _ _ _ _ _ _ h with h' | ⟨m2, h'⟩ | ⟨m2, h'⟩
          · injection h' with h1 h2 h3
            exact ⟨fR.cookie, fR.fingerprint, by rw [h2, htgt]⟩
          · simp at h'
          · simp at h'

set_option maxRecDepth 8192 in
/-- Witness for C2: in the successful concrete run the resolved URL
https://vpn2.example.com is the init POST target. -/
theorem C2_resolved_url_consistent_witness :
    okEnv.httpGet "https://vpn.example.com"
      = .ok ⟨200, "", none, "https://vpn2.example.com"⟩
    ∧ "https://vpn2.example.com"
      = (⟨200, "", none, "https://vpn2.example.com"⟩ : HTTPResponse).finalURL :=
  ⟨rfl, (C2_resolved_url_consistent okEnv "https://vpn.example.com" "cookie.txt" 2
      ⟨200, "", none, "https://vpn2.example.com"⟩ rfl).1
      "https://vpn2.example.com" requestHeaders (initPayload "https://vpn2.example.com")
      (by decide)⟩

end OCSSO
namespace OCSSO

/-- C3: a cookie is captured only if its name is exactly the token cookie
name; the captured cookie is the first matching one in jar order, on the
first poll whose jar contains a match; and in the run's trace the browser
close immediately follows the capture log. -/
theorem C3_cookie_capture (env : Env) (server ocFile name : String) (fuel i : Nat)
    (c : NetworkCookie)
    (h : (pollLoop env.cookiePolls name fuel 0).2 = some (i, c)) :
    c.name = name
    ∧ (∃ l₁ l₂, jarOf (env.cookiePolls i) = l₁ ++ c :: l₂ ∧ ∀ x ∈ l₁, x.name ≠ name)
    ∧ (∀ j, j < i → findCookie (jarOf (env.cookiePolls j)) name = none)
    ∧ (∀ iR tgt, (initializationStage env.httpGet env.newRequest env.httpPost
          env.parseInit server).2 = .ok (iR, tgt) → name = iR.tokenCookieName →
        ∃ t₁ t₂, (mainModel env server ocFile fuel).1
          = t₁ ++ Event.logInfo "received successful authentication token cookie from browser"
              :: Event.browserClose :: t₂) := by
  obtain ⟨h0, hlt, hfind, hbefore⟩ := pollLoop_some env.cookiePolls name fuel 0 i c h
  refine ⟨findCookie_name _ _ _ hfind, findCookie_first _ _ _ hfind, ?_, ?_⟩
  · intro j hj
    exact hbefore j (Nat.zero_le j) hj
  · intro iR tgt hinit hname
    subst hname
    obtain ⟨evs, hevs⟩ := pollLoop_events_on_match env.cookiePolls iR.tokenCookieName fuel 0 i c h
    unfold mainModel
    simp only
    rw [hinit]
    simp only
    rw [h]
    simp only
    rcases h3 : (finalizationStage env.newRequest env.httpPost env.parseFinal
        tgt c.value iR.opaqueValue).2 with c2 | fR
    · refine ⟨Event.logInfo "Logger initialized" :: envSetupEvents env
          ++ (initializationStage env.httpGet env.newRequest env.httpPost env.parseInit server).1
          ++ [Event.logInfo "waiting to detect successful authentication token cookie on the browser",
              Event.browserGoto iR.loginURL] ++ evs,
        (finalizationStage env.newRequest env.httpPost env.parseFinal
          tgt c.value iR.opaqueValue).1, ?_⟩
      rw [hevs]
      simp [List.append_assoc]
    · simp only
      rcases h4 : (writeOCConfig env.writeFileResult fR.cookie fR.fingerprint tgt ocFile).2
        with c3 | u <;>
        (refine ⟨Event.logInfo "Logger initialized" :: envSetupEvents env
            ++ (initializationStage env.httpGet env.newRequest env.httpPost env.parseInit server).1
            ++ [Event.logInfo "waiting to detect successful authentication token cookie on the browser",
                Event.browserGoto iR.loginURL] ++ evs,
          (finalizationStage env.newRequest env.httpPost env.parseFinal
              tgt c.value iR.opaqueValue).1
            ++ Event.logInfo "received openconnect server fingerprint and connection cookie successfully"
            :: (writeOCConfig env.writeFileResult fR.cookie fR.fingerprint tgt ocFile).1, ?_⟩
         try rw [h4]
         rw [hevs]
         simp [List.append_assoc])

/-- Witness for C3: in the concrete run the token cookie (with a decoy
ahead of it in the jar) is captured on poll 1 with the exact token name. -/
theorem C3_cookie_capture_witness :
    (pollLoop okEnv.cookiePolls "ssotoken" 2 0).2 = some (1, ⟨"ssotoken", "tok456"⟩)
    ∧ (⟨"ssotoken", "tok456"⟩ : NetworkCookie).name = "ssotoken" :=
  ⟨by decide, (C3_cookie_capture okEnv "https://vpn.example.com" "cookie.txt" "ssotoken"
      2 1 ⟨"ssotoken", "tok456"⟩ (by decide)).1⟩

/-- C6: if no polled jar ever contains the token cookie, the loop never
finds it: for every fuel bound the run is still running (it neither
finalizes nor exits on its own), the browser is never closed, nothing is
written, and every one of the `fuel` polls slept a fixed 10 ms. -/
theorem C6_login_wait_no_timeout (env : Env) (server ocFile : String) (fuel : Nat)
    (iR : InitializationResponse) (tgt : String) (jars : Nat → List NetworkCookie)
    (hinit : (initializationStage env.httpGet env.newRequest env.httpPost
        env.parseInit server).2 = .ok (iR, tgt))
    (hok : ∀ i, env.cookiePolls i = .ok (jars i))
    (hnone : ∀ i, findCookie (jars i) iR.tokenCookieName = none) :
    (mainModel env server ocFile fuel).2 = .running
    ∧ (pollLoop env.cookiePolls iR.tokenCookieName fuel 0).1
        = List.replicate fuel (Event.sleepMs 10)
    ∧ Event.browserClose ∉ (mainModel env server ocFile fuel).1
    ∧ (∀ p cnt m, Event.writeFile p cnt m ∉ (mainModel env server ocFile fuel).1) := by
  have hnone' : ∀ i, findCookie (jarOf (env.cookiePolls i)) iR.tokenCookieName = none := by
    intro i
    rw [hok i]
    exact hnone i
  have hok' : ∀ i, pollErrEvents (env.cookiePolls i) = [] := by
    intro i
    rw [hok i]
    rfl
  have hloop := pollLoop_none env.cookiePolls iR.tokenCookieName hnone' fuel 0
  have htr := mainModel_running_trace env server ocFile fuel iR tgt hinit hloop
  refine ⟨by rw [htr], pollLoop_events_replicate _ _ hok' hnone' fuel 0, ?_, ?_⟩
  · intro hmem
    rw [htr] at hmem
    simp only [List.mem_cons, List.mem_append, List.mem_singleton, List.not_mem_nil,
      or_false, false_or, or_assoc] at hmem
    rcases hmem with h | h | h | h | h | h
    · simp at h
    · obtain ⟨m, hm⟩ := envSetupEvents_shape env _ h
      simp at hm
    · rcases initializationStage_events _ _ _ _ _ _ h with h' | ⟨r2, hg, h'⟩ | ⟨m, h'⟩ | ⟨m, h'⟩
        <;> simp at h'
    · simp at h
    · simp at h
    · rcases pollLoop_events_shape env.cookiePolls iR.tokenCookieName fuel 0 _ h
        with h' | h' | h' <;> simp at h'
  · intro p cnt m hmem
    rw [htr] at hmem
    simp only [List.mem_cons, List.mem_append, List.mem_singleton, List.not_mem_nil,
      or_false, false_or, or_assoc] at hmem
    rcases hmem with h | h | h | h | h | h
    · simp at h
    · obtain ⟨m2, hm⟩ := envSetupEvents_shape env _ h
      simp at hm
    · rcases initializationStage_events _ _ _ _ _ _ h with h' | ⟨r2, hg, h'⟩ | ⟨m2, h'⟩ | ⟨m2, h'⟩
        <;> simp at h'
    · simp at h
    · simp at h
    · rcases pollLoop_events_shape env.cookiePolls iR.tokenCookieName fuel 0 _ h
        with h' | h' | h' <;> simp at h'

/-- The successful oracle with jars that never contain the token cookie. -/
def noTokenEnv : Env := { okEnv with cookiePolls := fun _ => .ok [⟨"decoy", "x"⟩] }

set_option maxRecDepth 8192 in
/-- Witness for C6: with only decoy cookies the run is still running after
3 polls. -/
theorem C6_login_wait_no_timeout_witness :
    (initializationStage noTokenEnv.httpGet noTokenEnv.newRequest noTokenEnv.httpPost
        noTokenEnv.parseInit "https://vpn.example.com").2
      = .ok (⟨"https://idp.example.com/login", "https://idp.example.com/done",
              "ssotoken", "abc123"⟩, "https://vpn2.example.com")
    ∧ (mainModel noTokenEnv "https://vpn.example.com" "cookie.txt" 3).2 = .running :=
  ⟨rfl, (C6_login_wait_no_timeout noTokenEnv "https://vpn.example.com" "cookie.txt" 3
      ⟨"https://idp.example.com/login", "https://idp.example.com/done", "ssotoken", "abc123"⟩
      "https://vpn2.example.com" (fun _ => [⟨"decoy", "x"⟩]) rfl (fun _ => rfl)
      (fun _ => rfl)).1⟩

end OCSSO
namespace OCSSO

/-- C8: every credential-file write of any run uses owner-only mode 0600
(= 384); a write failure makes `writeOCConfig` exit 1; and a run whose
writes all fail never exits 0. -/
theorem C8_mode_0600_write_fatal (env : Env) (server ocFile : String) (fuel : Nat) :
    (∀ p cnt m, Event.writeFile p cnt m ∈ (mainModel env server ocFile fuel).1 →
        m = ocFileMode)
    ∧ ocFileMode = 384
    ∧ (∀ e cookie fingerprint srv path,
        env.writeFileResult path (ocConfigContent cookie fingerprint srv) = .error e →
        (writeOCConfig env.writeFileResult cookie fingerprint srv path).2 = .error 1)
    ∧ (∀ e, (mainModel { env with writeFileResult := fun _ _ => .error e }
          server ocFile fuel).2 ≠ .exited 0) := by
  refine ⟨?_, rfl, ?_, ?_⟩
  · intro p cnt m hmem
    rcases mainModel_mem env server ocFile fuel _ hmem with h | h | h | ⟨iR, tgt, hinit, h⟩
    · simp at h
    · obtain ⟨m2, hm⟩ := envSetupEvents_shape env _ h
      simp at hm
    · rcases initializationStage_events _ _ _ _ _ _ h with h' | ⟨r2, hg, h'⟩ | ⟨m2, h'⟩ | ⟨m2, h'⟩
        <;> simp at h'
    · rcases h with h | h | h | h | ⟨i, ck, hloop, h⟩
      · simp at h
      · simp at h
      · rcases pollLoop_events_shape env.cookiePolls iR.tokenCookieName fuel 0 _ h
          with h' | h' | h' <;> simp at h'
      · simp at h
      · rcases h with h | h | ⟨fR, hfin, h⟩
        · rcases finalizationStage_events _ _ _ _ _ _ _ h with h' | ⟨m2, h'⟩ | ⟨m2, h'⟩
            <;> simp at h'
        · simp at h
        · rcases writeOCConfig_events _ _ _ _ _ _ h with h' | ⟨m2, h'⟩ | ⟨m2, h'⟩
          · injection h' with h1 h2 h3
          · simp at h'
          · simp at h'
  · intro e cookie fingerprint srv path hw
    unfold writeOCConfig
    simp only
    rw [hw]
  · intro e
    exact mainModel_write_fail _ server ocFile fuel (fun p cnt => ⟨e, rfl⟩)

set_option maxRecDepth 8192 in
/-- Witness for C8: the concrete run's write uses mode 384 = 0600, and with
a failing write oracle the run does not exit 0. -/
theorem C8_mode_0600_write_fatal_witness :
    Event.writeFile "cookie.txt"
        (ocConfigContent "sesscookie" "fp789" "https://vpn2.example.com") ocFileMode
      ∈ (mainModel okEnv "https://vpn.example.com" "cookie.txt" 2).1
    ∧ ocFileMode = ocFileMode
    ∧ (mainModel { okEnv with writeFileResult := fun _ _ => .error "denied" }
        "https://vpn.example.com" "cookie.txt" 2).2 ≠ .exited 0 :=
  ⟨by decide,
   (C8_mode_0600_write_fatal okEnv "https://vpn.example.com" "cookie.txt" 2).1
     "cookie.txt" (ocConfigContent "sesscookie" "fp789" "https://vpn2.example.com")
     ocFileMode (by decide),
   (C8_mode_0600_write_fatal okEnv "https://vpn.example.com" "cookie.txt" 2).2.2.2 "denied"⟩

set_option maxRecDepth 8192 in
/-- C1 as stated is false on the code: in a run where all four
environment-setup calls fail and the first cookie poll fails, those errors
are logged but execution continues — the run still finalizes, writes the
credential file and exits 0 (no fatal termination, later stages run). -/
theorem C1_counterexample :
    (mainModel badSetupEnv "https://vpn.example.com" "cookie.txt" 2).2 = .exited 0
    ∧ Event.logError "could not launch playwright"
        ∈ (mainModel badSetupEnv "https://vpn.example.com" "cookie.txt" 2).1
    ∧ Event.logError "could not launch Firefox"
        ∈ (mainModel badSetupEnv "https://vpn.example.com" "cookie.txt" 2).1
    ∧ Event.logError "could not create context"
        ∈ (mainModel badSetupEnv "https://vpn.example.com" "cookie.txt" 2).1
    ∧ Event.logError "could not create page"
        ∈ (mainModel badSetupEnv "https://vpn.example.com" "cookie.txt" 2).1
    ∧ Event.logError "could not get cookies from browser context"
        ∈ (mainModel badSetupEnv "https://vpn.example.com" "cookie.txt" 2).1
    ∧ Event.writeFile "cookie.txt"
        (ocConfigContent "sesscookie" "fp789" "https://vpn2.example.com") ocFileMode
        ∈ (mainModel badSetupEnv "https://vpn.example.com" "cookie.txt" 2).1 :=
  ⟨by decide, by decide, by decide, by decide, by decide, by decide, by decide⟩

/-- C1 amended: transport errors (GET and POST), request construction
failures, XML-parse failures and finalization or file-write failures are
logged and fatal — exit 1 and no later stage runs (the traces end at the
error); but the four environment-setup errors and the cookie-read error in
the polling loop are only logged: the run's outcome is unchanged and the
loop keeps polling. -/
theorem C1_amended_error_policy (env : Env) (server ocFile : String) (fuel : Nat)
    (e : String) :
    (env.httpGet server = .error e →
      mainModel env server ocFile fuel
        = (Event.logInfo "Logger initialized" :: envSetupEvents env
            ++ [Event.httpGet server, Event.logError "Failed to get url"], .exited 1))
    ∧ (∀ resp, env.httpGet server = .ok resp →
        env.newRequest resp.finalURL (initPayload resp.finalURL) = .ok () →
        env.httpPost resp.finalURL (initPayload resp.finalURL) = .error e →
        mainModel env server ocFile fuel
          = (Event.logInfo "Logger initialized" :: envSetupEvents env
              ++ [Event.httpGet server,
                  Event.httpPost resp.finalURL requestHeaders (initPayload resp.finalURL),
                  Event.logError "failed to POST request to the server"], .exited 1))
    ∧ (∀ resp resp2, env.httpGet server = .ok resp →
        env.newRequest resp.finalURL (initPayload resp.finalURL) = .ok () →
        env.httpPost resp.finalURL (initPayload resp.finalURL) = .ok resp2 →
        env.parseInit resp2.bodyBytes = .error e →
        mainModel env server ocFile fuel
          = (Event.logInfo "Logger initialized" :: envSetupEvents env
              ++ [Event.httpGet server,
                  Event.httpPost resp.finalURL requestHeaders (initPayload resp.finalURL),
                  Event.logInfo "successfullly received response from server",
                  Event.logError "failed to unmarshal the received response body to XML"],
             .exited 1))
    ∧ (∀ iR tgt i ck c,
        (initializationStage env.httpGet env.newRequest env.httpPost env.parseInit server).2
          = .ok (iR, tgt) →
        (pollLoop env.cookiePolls iR.tokenCookieName fuel 0).2 = some (i, ck) →
        (finalizationStage env.newRequest env.httpPost env.parseFinal
            tgt ck.value iR.opaqueValue).2 = .error c →
        (mainModel env server ocFile fuel).2 = .exited 1)
    ∧ ((mainModel { env with writeFileResult := fun _ _ => .error e } server ocFile fuel).2
        ≠ .exited 0)
    ∧ (mainModel (env.withSetupErrors e) server ocFile fuel).2
        = (mainModel env server ocFile fuel).2
    ∧ Event.logError "could not launch playwright"
        ∈ (mainModel (env.withSetupErrors e) server ocFile fuel).1
    ∧ Event.logError "could not launch Firefox"
        ∈ (mainModel (env.withSetupErrors e) server ocFile fuel).1
    ∧ Event.logError "could not create context"
        ∈ (mainModel (env.withSetupErrors e) server ocFile fuel).1
    ∧ Event.logError "could not create page"
        ∈ (mainModel (env.withSetupErrors e) server ocFile fuel).1
    ∧ (mainModel env.cookiesSquelched server ocFile fuel).2
        = (mainModel env server ocFile fuel).2
    ∧ (∀ name i2 e2, env.cookiePolls i2 = .error e2 → i2 < fuel →
        (∀ j, j ≤ i2 → findCookie (jarOf (env.cookiePolls j)) name = none) →
        Event.logError "could not get cookies from browser context"
          ∈ (pollLoop env.cookiePolls name fuel 0).1) := by
  refine ⟨?_, ?_, ?_, ?_, ?_, ?_, ?_, ?_, ?_, ?_, ?_, ?_⟩
  · intro hget
    exact mainModel_get_fail env server ocFile fuel e hget
  · intro resp hget hreq hpost
    exact mainModel_initPost_fail env server ocFile fuel resp e hget hreq hpost
  · intro resp resp2 hget hreq hpost hparse
    exact mainModel_initParse_fail env server ocFile fuel resp resp2 e hget hreq hpost hparse
  · intro iR tgt i ck c hinit hloop hfin
    exact mainModel_fin_fail env server ocFile fuel iR tgt i ck c hinit hloop hfin
  · exact mainModel_write_fail _ server ocFile fuel (fun p cnt => ⟨e, rfl⟩)
  · rw [mainModel_snd, mainModel_snd, mainOutcome_setup_errors]
  · exact mainModel_setup_mem _ server ocFile fuel _
      (by simp [envSetupEvents, setupErrEvents, Env.withSetupErrors])
  · exact mainModel_setup_mem _ server ocFile fuel _
      (by simp [envSetupEvents, setupErrEvents, Env.withSetupErrors])
  · exact mainModel_setup_mem _ server ocFile fuel _
      (by simp [envSetupEvents, setupErrEvents, Env.withSetupErrors])
  · exact mainModel_setup_mem _ server ocFile fuel _
      (by simp [envSetupEvents, setupErrEvents, Env.withSetupErrors])
  · rw [mainModel_snd, mainModel_snd, mainOutcome_squelch]
  · intro name i2 e2 herr hi2 hnone
    exact pollLoop_logs_cookie_error env.cookiePolls name fuel 0 i2 e2 herr (Nat.zero_le i2)
      (by omega) (fun j _ hj2 => hnone j hj2)

/-- Oracle whose initial GET fails at the transport level. -/
def getFailEnv : Env := { okEnv with httpGet := fun _ => .error "dns failure" }

/-- Witness for the amended C1: a failing GET yields exactly the logged
error and exit 1. -/
theorem C1_amended_error_policy_witness :
    mainModel getFailEnv "https://vpn.example.com" "cookie.txt" 2
      = (Event.logInfo "Logger initialized" :: envSetupEvents getFailEnv
          ++ [Event.httpGet "https://vpn.example.com", Event.logError "Failed to get url"],
         .exited 1) :=
  (C1_amended_error_policy getFailEnv "https://vpn.example.com" "cookie.txt" 2 "dns failure").1
    rfl

end OCSSO
namespace OCSSO

/-- C4: every gateway POST of the finalization stage carries exactly the
auth-reply payload built from the captured token and the echoed opaque
value; that payload declares client type "auth-reply", carries the same
version and device-id elements as the init payload, empty session-token and
session-id elements, the opaque value echoed verbatim, and the token nested
as an sso-token element under the auth element. -/
theorem C4_authreply_body (mkReq : String → String → Except String Unit)
    (doPost : String → String → Except String HTTPResponse)
    (parse : String → Except String FinalizationResponse)
    (vpnServer token configHash targetVPNServer : String) :
    (∀ u hd b, Event.httpPost u hd b
        ∈ (finalizationStage mkReq doPost parse vpnServer token configHash).1 →
        b = finalPayload configHash token)
    ∧ containsSeg (finalPayload configHash token)
        "<config-auth client=\"vpn\" type=\"auth-reply\" aggregate-auth-version=\"2\">"
    ∧ containsSeg (finalPayload configHash token) "<version who=\"vpn\">4.7.00136</version>"
    ∧ containsSeg (initPayload targetVPNServer) "<version who=\"vpn\">4.7.00136</version>"
    ∧ containsSeg (finalPayload configHash token) "<device-id>linux-64</device-id>"
    ∧ containsSeg (initPayload targetVPNServer) "<device-id>linux-64</device-id>"
    ∧ containsSeg (finalPayload configHash token) "<session-token/>"
    ∧ containsSeg (finalPayload configHash token) "<session-id/>"
    ∧ containsSeg (finalPayload configHash token)
        ("<opaque is-for=\"sg\">" ++ configHash ++ "</opaque>")
    ∧ containsSeg (finalPayload configHash token)
        ("<auth>\n        <sso-token>" ++ token ++ "</sso-token>\n      </auth>") := by
  refine ⟨?_, finalPayload_authreply configHash token, finalPayload_version configHash token,
    initPayload_version targetVPNServer, finalPayload_deviceId configHash token,
    initPayload_deviceId targetVPNServer, finalPayload_sessionToken configHash token,
    finalPayload_sessionId configHash token, finalPayload_opaqueEcho configHash token,
    finalPayload_ssoUnderAuth configHash token⟩
  intro u hd b hmem
  rcases finalizationStage_events mkReq doPost parse vpnServer token configHash _ hmem
    with h | ⟨m, hm⟩ | ⟨m, hm⟩
  · injection h with h1 h2 h3
  · simp at hm
  · simp at hm

set_option maxRecDepth 8192 in
/-- Witness for C4: in the concrete finalization stage the POST body is the
auth-reply payload built from the captured token and the echoed opaque. -/
theorem C4_authreply_body_witness :
    Event.httpPost "https://vpn2.example.com" requestHeaders (finalPayload "abc123" "tok456")
      ∈ (finalizationStage okEnv.newRequest okEnv.httpPost okEnv.parseFinal
          "https://vpn2.example.com" "tok456" "abc123").1
    ∧ finalPayload "abc123" "tok456" = finalPayload "abc123" "tok456" :=
  ⟨by decide,
   (C4_authreply_body okEnv.newRequest okEnv.httpPost okEnv.parseFinal
      "https://vpn2.example.com" "tok456" "abc123" "https://vpn2.example.com").1
      "https://vpn2.example.com" requestHeaders (finalPayload "abc123" "tok456") (by decide)⟩

end OCSSO
